import Mathlib

/-!
Verification of the KFITER import-reconciliation engine against its
natural-language specification.

The Python sources under `app/` (queries.py, smart_import.py, utils.py)
are embedded shallowly below: Python strings become `String`, `None`
becomes the empty string where the source itself coerces `None` to `""`
(`str(x or "")`, `(x or "").strip()` and friends), SQLite tables become
lists of records kept in `id` order (matching the `ORDER BY id ASC`
used by every lookup the claims touch), and `LIMIT n` becomes
`List.take n`.  External library calls are modelled at the interface
the source relies on and each such modelling choice is documented at
the definition that makes it.
-/

namespace KFIT

/-- Python `str.strip()` whitespace test, restricted to the ASCII
whitespace characters (space, tab, newline, carriage return, vertical
tab, form feed).  Python also strips some exotic Unicode spaces; none
of the data handled by the engine contains them. -/
def pyIsSpace (c : Char) : Bool :=
  c == ' ' || c == '\t' || c == '\n' || c == '\r' ||
  c == (Char.ofNat 11) || c == (Char.ofNat 12)

/-- Characters of a string after Python `str.strip()`. -/
def stripChars (l : List Char) : List Char :=
  ((l.dropWhile pyIsSpace).reverse.dropWhile pyIsSpace).reverse

/-- Python `str.strip()`. -/
def pyStrip (s : String) : String :=
  (stripChars s.data).asString

/-- Does the character list start with the given needle? -/
def charsStartsWith : (hay needle : List Char) → Bool
  | _, [] => true
  | [], _ :: _ => false
  | h :: hs, n :: ns => h == n && charsStartsWith hs ns

/-- Substring containment on character lists (Python `needle in hay`). -/
def charsContains : (hay needle : List Char) → Bool
  | hay, needle =>
    charsStartsWith hay needle ||
      match hay with
      | [] => false
      | _ :: t => charsContains t needle

/-- Python `needle in hay` on strings. -/
def strContains (hay needle : String) : Bool :=
  charsContains hay.data needle.data

/-- Remove every occurrence of a character (Python `s.replace(c, "")`,
SQLite `REPLACE(s, c, '')`). -/
def removeChar (c : Char) (s : String) : String :=
  (s.data.filter (fun x => x ≠ c)).asString

/-- ASCII lowercase of a string (Python `str.lower()`; Korean
characters are unaffected by `lower` in both systems). -/
def asciiLower (s : String) : String :=
  (s.data.map Char.toLower).asString

/-- ASCII uppercase of a string (Python `str.upper()`). -/
def asciiUpper (s : String) : String :=
  (s.data.map Char.toUpper).asString

/-- Last `n` characters of a string; the whole string when it is
shorter (SQLite `substr(s, -n)` semantics). -/
def strTakeRight (s : String) (n : Nat) : String :=
  (s.data.reverse.take n).reverse.asString

/-- Is the character a Hangul syllable (the `가-힣` regex range)? -/
def isHangul (c : Char) : Bool :=
  0xAC00 ≤ c.val && c.val ≤ 0xD7A3

/-- Remove every (left-to-right, non-overlapping) occurrence of
`needle` from the character list, with enough fuel to scan it once
(Python `s.replace(needle, "")`). -/
def removeAllSub (needle : List Char) : Nat → List Char → List Char
  | _, [] => []
  | 0, hay => hay
  | fuel + 1, c :: t =>
    if needle ≠ [] && charsStartsWith (c :: t) needle then
      removeAllSub needle fuel ((c :: t).drop needle.length)
    else c :: removeAllSub needle fuel t

/-- Python `hay.replace(needle, "")`. -/
def strRemoveAll (hay needle : String) : String :=
  (removeAllSub needle.data hay.data.length hay.data).asString

-- ---------------------------------------------------------------
-- utils.is_name_match (utils.py)
-- ---------------------------------------------------------------

/-- The per-position loop of `is_name_match`: walk the zipped character
lists; a wildcard in the masked position always passes, otherwise the
characters must agree.  Python's `zip` stops at the shorter list, which
the `| _, _ => true` arm mirrors. -/
def nameMatchLoop : (real masked : List Char) → Bool
  | r :: rs, m :: ms =>
    if m == '*' || m == '?' || m == 'X' || m == 'x' then
      nameMatchLoop rs ms
    else if r ≠ m then false
    else nameMatchLoop rs ms
  | _, _ => true

/-- `utils.is_name_match(real_name, masked_input)`: empty input fails,
then both sides are stripped, lengths must agree and every position
must match exactly or be a wildcard (`*`, `?`, `X`, `x`) in the masked
input. -/
def isNameMatch (realName maskedInput : String) : Bool :=
  if realName == "" || maskedInput == "" then false
  else
    let rClean := stripChars realName.data
    let mClean := stripChars maskedInput.data
    if rClean.length ≠ mClean.length then false
    else nameMatchLoop rClean mClean

/-- The specification's wording of the masked-name contract: the two
stripped strings are pointwise related, each real character either
equal to the masked character or the masked character being one of the
wildcard markers.  `List.Forall₂` forces equal lengths. -/
def specNameMatch (realName maskedInput : String) : Prop :=
  List.Forall₂ (fun r m => r = m ∨ m ∈ ['*', '?', 'X', 'x'])
    (stripChars realName.data) (stripChars maskedInput.data)

-- ---------------------------------------------------------------
-- Normalizers (queries.py helper functions)
-- ---------------------------------------------------------------

/-- `queries.normalize_phone`: keep only digits (`re.sub(r"\D", "", s)`;
the engine's phone data is ASCII, so `\d` is the ASCII digits). -/
def normalizePhone (phone : String) : String :=
  (phone.data.filter Char.isDigit).asString

/-- `queries.phone_last4`: last four digits when at least four exist. -/
def phoneLast4 (phone : String) : String :=
  let d := normalizePhone phone
  if d.length ≥ 4 then strTakeRight d 4 else ""

/-- `queries.make_match_key`: first character of the stripped name plus
the last four digits of the phone; empty unless both parts exist. -/
def makeMatchKey (name phoneOrLast4 : String) : String :=
  if name == "" then ""
  else
    let first := ((pyStrip name).data.take 1).asString
    let digits := (phoneOrLast4.data.filter Char.isDigit).asString
    let last4 := if digits.length > 4 then strTakeRight digits 4 else digits
    if first ≠ "" && last4.length == 4 then first ++ last4 else ""

/-- Collapse every maximal run of whitespace into a single space
(`re.sub(r"\s+", " ", s)`); the flag records whether the previous
character was part of a whitespace run. -/
def collapseAux : Bool → List Char → List Char
  | _, [] => []
  | prevSpace, c :: t =>
    if pyIsSpace c then
      if prevSpace then collapseAux true t
      else ' ' :: collapseAux true t
    else c :: collapseAux false t

def collapseSpaces (l : List Char) : List Char :=
  collapseAux false l

/-- `queries._norm_text`: strip, collapse internal whitespace,
lowercase.  Python `None` becomes `""` before this is applied. -/
def normText (s : String) : String :=
  asciiLower ((collapseSpaces (stripChars s.data)).asString)

/-- `queries._norm_name`: `_norm_text`, then keep only ASCII
alphanumerics, Hangul syllables and the mask wildcard `*`
(`re.sub(r"[^0-9a-zA-Z가-힣\*]", "", s)`). -/
def normName (s : String) : String :=
  ((normText s).data.filter (fun c => c.isAlphanum || isHangul c || c == '*')).asString

/-- `queries._norm_birth`: digits only; first eight when at least eight
exist. -/
def normBirth (s : String) : String :=
  let d := (s.data.filter Char.isDigit).asString
  if d.length ≥ 8 then (d.data.take 8).asString else d

/-- `queries._norm_policy_no`: strip, drop whitespace, keep only
alphanumerics, uppercase.  (Filtering to alphanumerics already removes
all whitespace, matching the two-step regex of the source.) -/
def normPolicyNo (s : String) : String :=
  asciiUpper (((pyStrip s).data.filter Char.isAlphanum).asString)

/-- Is the string a well-formed `YYYY-MM-DD` date (the format pandas
both accepts and re-emits unchanged)?  Month 1-12, day 1-31. -/
def isIsoDate (s : String) : Bool :=
  match s.data with
  | [y1, y2, y3, y4, d1, m1, m2, d2, a1, a2] =>
    y1.isDigit && y2.isDigit && y3.isDigit && y4.isDigit &&
    d1 == '-' && m1.isDigit && m2.isDigit && d2 == '-' &&
    a1.isDigit && a2.isDigit &&
    (let mm := (m1.toNat - '0'.toNat) * 10 + (m2.toNat - '0'.toNat)
     let dd := (a1.toNat - '0'.toNat) * 10 + (a2.toNat - '0'.toNat)
     1 ≤ mm && mm ≤ 12 && 1 ≤ dd && dd ≤ 31)
  | _ => false

/-- `queries._norm_date`.  The source first tries
`pandas.to_datetime` (an external library): an already-ISO
`YYYY-MM-DD` string round-trips to itself, which is the only date
format the imported data of the verified claims carries; empty /
`nan` / `none` inputs give `""`.  Every other string takes the
source's final fallback: whitespace removed, lowercased.  (The
pandas parsing of further formats and the Excel-serial branch are
external behaviour not modelled; no claim exercises them.) -/
def normDate (s : String) : String :=
  let t := pyStrip s
  if t == "" || asciiLower t == "nan" || asciiLower t == "none" then ""
  else if isIsoDate t then t
  else asciiLower ((t.data.filter (fun c => !pyIsSpace c)).asString)

/-- `queries._norm_premium`: digits only, parsed as an integer, `0`
when no digits remain. -/
def normPremium (s : String) : Nat :=
  let d := s.data.filter Char.isDigit
  d.foldl (fun acc c => acc * 10 + (c.toNat - '0'.toNat)) 0

/-- `queries._sha1` stands for `hashlib.sha1(s).hexdigest()`, an
external primitive.  It is modelled as a tagged copy of its input:
the engine only ever compares digests for equality, and SHA-1 is
collision-free on the engine's short pipe-joined key strings, so an
injective stand-in preserves exactly the behaviour the source relies
on. -/
def sha1 (s : String) : String :=
  "sha1:" ++ s

/-- `queries._contract_key_hash`: policy-number key when a normalized
policy number exists, otherwise the product/date/premium key with the
insured birth date (or name) as discriminator.  `customer_id` is
rendered the way Python renders `str(customer_id or "")`. -/
def cidStr (cid : Int) : String :=
  if cid == 0 then "" else toString cid

def contractKeyHash (customerId : Int) (company policyNo productName startDate premium
    insuredBirth insuredName : String) : String :=
  let pol := normPolicyNo policyNo
  if pol ≠ "" then
    sha1 (String.intercalate "|" ["P", cidStr customerId, normText company, pol])
  else
    let discr := if normBirth insuredBirth ≠ "" then normBirth insuredBirth
                 else normName insuredName
    sha1 (String.intercalate "|"
      ["N", cidStr customerId, normText company, normText productName,
       normDate startDate, toString (normPremium premium), discr])

/-- `queries._contract_stable_hash`: the policy-number-free identity
key. -/
def contractStableHash (customerId : Int) (company productName startDate premium
    insuredBirth insuredName insuredGender : String) : String :=
  let discr := if normBirth insuredBirth ≠ "" then normBirth insuredBirth
               else normName insuredName
  sha1 (String.intercalate "|"
    ["S", cidStr customerId, normText company, normText productName,
     normDate startDate, toString (normPremium premium), discr,
     normText insuredGender])

/-- `queries._contract_content_hash`: change detection over all
business fields. -/
def contractContentHash (customerId : Int) (company productName policyNo premium status
    startDate endDate insuredName insuredPhone insuredBirth insuredGender
    coverageSummary : String) : String :=
  sha1 (String.intercalate "|"
    [cidStr customerId, normText company, normText productName,
     normPolicyNo policyNo, toString (normPremium premium), normText status,
     normDate startDate, normDate endDate, normName insuredName,
     normText insuredPhone, normBirth insuredBirth, normText insuredGender,
     normText coverageSummary])

-- ---------------------------------------------------------------
-- Corporate-name heuristic and org-name key (queries.py /
-- smart_import.py private copies, which are identical)
-- ---------------------------------------------------------------

/-- Corporate-marker keyword list of `queries._is_corporate_name` /
`smart_import._is_corporate_name` (the list without the
`청/구청/시청` entries that only `utils.is_corporate_name` adds). -/
def corpKws : List String :=
  ["(주)", "㈜", "주식회사", "유한회사", "재단", "사단", "협동조합",
   "법무법인", "세무법인", "회계법인", "병원", "의원", "학교", "학원",
   "센터", "협회", "조합", "공사", "공단"]

/-- A regex word character for the `\b` boundaries of the corporate
regex: ASCII alphanumerics, underscore, and Hangul (the only non-ASCII
word characters occurring in this data). -/
def isWordChar (c : Char) : Bool :=
  c.isAlphanum || c == '_' || isHangul c

/-- Does one of the needles occur in `hay` delimited by word
boundaries, with `prev` the character immediately before `hay`?
Implements `re.search(r"\b(CORP|CORPORATION|LTD|LIMITED|INC)\b", n, re.I)`
over the uppercased text. -/
def wordScan (needles : List (List Char)) : (prev : Option Char) → (hay : List Char) → Bool
  | prev, hay =>
    (needles.any fun n =>
      charsStartsWith hay n &&
      (match prev with | none => true | some p => !isWordChar p) &&
      (match hay.drop n.length with | [] => true | c :: _ => !isWordChar c)) ||
    match hay with
    | [] => false
    | c :: t => wordScan needles (some c) t

/-- `queries._is_corporate_name` (= `smart_import._is_corporate_name`):
keyword containment, else the case-insensitive word-bounded
CORP/CORPORATION/LTD/LIMITED/INC regex. -/
def isCorporateName (name : String) : Bool :=
  let n := pyStrip name
  if n == "" then false
  else if corpKws.any (fun k => strContains n k) then true
  else
    wordScan
      (["CORP", "CORPORATION", "LTD", "LIMITED", "INC"].map (·.data))
      none (asciiUpper n).data

/-- `queries._norm_org_name` (= `smart_import._norm_org_name`):
drop spaces, strip the standard corporate markers, drop brackets. -/
def normOrgName (name : String) : String :=
  let n := pyStrip name
  if n == "" then ""
  else
    let n2 := (n.data.filter (fun c => c ≠ ' ')).asString
    let n2 := ["(주)", "㈜", "주식회사", "유한회사", "재단법인", "사단법인"].foldl
      (fun acc k => strRemoveAll acc k) n2
    (n2.data.filter (fun c =>
      c ≠ '(' && c ≠ ')' && c ≠ '[' && c ≠ ']' &&
      c ≠ (Char.ofNat 123) && c ≠ (Char.ofNat 125))).asString

-- ---------------------------------------------------------------
-- Contracts table and queries.add_contract
-- ---------------------------------------------------------------

/-- One row of the `contracts` table (database.py schema; the columns
`add_contract` reads or writes).  The table carries a UNIQUE index on
`key_hash` (database.py `idx_contracts_key_hash`) and rows are listed
in `id` order, the order every `ORDER BY id ASC` lookup sees.
Python `None` values are represented by `""`. -/
structure Contract where
  id : Nat
  customer_id : Int
  company : String := ""
  product_name : String := ""
  policy_no : String := ""
  policy_no_norm : String := ""
  premium : Nat := 0
  status : String := ""
  start_date : String := ""
  end_date : String := ""
  coverage_summary : String := ""
  insured_name : String := ""
  insured_phone : String := ""
  insured_birth : String := ""
  insured_gender : String := ""
  policyholder_name : String := ""
  policyholder_type : String := ""
  policyholder_norm : String := ""
  policyholder_phone : String := ""
  primary_role : String := ""
  stable_hash : String := ""
  key_hash : String := ""
  content_hash : String := ""
deriving Repr, DecidableEq

/-- The argument tuple of `queries.add_contract` (keyword defaults
`None` become `""`; a numeric `premium` is passed through `str`). -/
structure CtArgs where
  customer_id : Int
  company : String := ""
  product_name : String := ""
  policy_no : String := ""
  premium : String := ""
  status : String := ""
  start_date : String := ""
  end_date : String := ""
  insured_name : String := ""
  insured_phone : String := ""
  insured_birth : String := ""
  insured_gender : String := ""
  coverage_summary : String := ""
  policyholder_name : String := ""
  policyholder_phone : String := ""
  policyholder_type : String := ""
  policyholder_norm : String := ""
  primary_role : String := ""
deriving Repr, DecidableEq

/-- The values `add_contract` computes before touching the table:
normalized fields, the three hashes (note the source feeds the
already-normalized `pol_norm`, `start_norm`, `prem_int` back into the
hash helpers, which re-normalize them), and the enriched policyholder
columns. -/
structure CtComputed where
  polNorm : String
  premInt : Nat
  startNorm : String
  endNorm : String
  phName : String
  phType : String
  phNorm : String
  phPhone : String
  prRole : String
  stableHash : String
  keyHash : String
  contentHash : String
deriving Repr, DecidableEq

def computeCt (a : CtArgs) : CtComputed :=
  let premInt := normPremium a.premium
  let startNorm := normDate a.start_date
  let endNorm := normDate a.end_date
  let polNorm := normPolicyNo a.policy_no
  let stableHash := contractStableHash a.customer_id a.company a.product_name
    startNorm (toString premInt) a.insured_birth a.insured_name a.insured_gender
  let keyHash := contractKeyHash a.customer_id a.company polNorm a.product_name
    startNorm (toString premInt) a.insured_birth a.insured_name
  let contentHash := contractContentHash a.customer_id a.company a.product_name
    polNorm (toString premInt) a.status startNorm endNorm a.insured_name
    a.insured_phone a.insured_birth a.insured_gender a.coverage_summary
  let phName0 := pyStrip a.policyholder_name
  let phName := if phName0 == "" then pyStrip a.insured_name else phName0
  let phPhone := pyStrip a.policyholder_phone
  let phType0 := pyStrip a.policyholder_type
  let phType := if phType0 == "" then
      (if isCorporateName phName then "CORP" else "PERSON") else phType0
  let phNorm0 := pyStrip a.policyholder_norm
  let phNorm := if phNorm0 == "" then normOrgName phName else phNorm0
  let prRole0 := pyStrip a.primary_role
  let prRole := if prRole0 == "" then
      (if phType == "CORP" && pyStrip a.insured_name ≠ "" && phName ≠ "" &&
          removeChar ' ' phName ≠ removeChar ' ' (pyStrip a.insured_name) then
        "INSURED" else "POLICYHOLDER")
    else prRole0
  { polNorm, premInt, startNorm, endNorm, phName, phType, phNorm, phPhone,
    prRole, stableHash, keyHash, contentHash }

/-- Outcome of the three-stage match cascade of `add_contract`. -/
inductive MatchOut where
  | found : Contract → MatchOut
  | ambig : MatchOut
  | noMatch : MatchOut
deriving Repr, DecidableEq

/-- The match cascade of `add_contract`:
1. first row with the computed `key_hash` (`LIMIT 1`);
2. else, when a normalized policy number exists, this customer's rows
   with that `policy_no_norm` (`ORDER BY id ASC LIMIT 5`): an identical
   `content_hash` wins, else a unique row wins, else fall through;
3. else this customer's rows with the computed `stable_hash`
   (`ORDER BY id ASC LIMIT 10`): identical content wins, a unique row
   wins, several rows all without a policy number (and no incoming one)
   attach to the first, and otherwise the call is ambiguous. -/
def cascadeStep2 (db : List Contract) (cid : Int)
    (polNorm contentHash : String) : Option Contract :=
  if polNorm ≠ "" then
    let rows := (db.filter
      (fun c => c.customer_id == cid && c.policy_no_norm == polNorm)).take 5
    match rows.find? (fun r => r.content_hash == contentHash) with
    | some r => some r
    | none => match rows with
      | [r] => some r
      | _ => none
  else none

def cascadeStep3 (db : List Contract) (cid : Int)
    (polNorm stableHash contentHash : String) : MatchOut :=
  if stableHash ≠ "" then
    let rows := (db.filter
      (fun c => c.customer_id == cid && c.stable_hash == stableHash)).take 10
    match rows.find? (fun r => r.content_hash == contentHash) with
    | some r => .found r
    | none =>
      match rows with
      | [] => .noMatch
      | [r] => .found r
      | r :: _ :: _ =>
        if polNorm == "" &&
            (rows.filter (fun x => x.policy_no_norm ≠ "")).isEmpty then
          .found r
        else .ambig
  else .noMatch

def matchCascade (db : List Contract) (cid : Int)
    (polNorm stableHash keyHash contentHash : String) : MatchOut :=
  match db.find? (fun c => c.key_hash == keyHash) with
  | some c => .found c
  | none =>
    match cascadeStep2 db cid polNorm contentHash with
    | some c => .found c
    | none => cascadeStep3 db cid polNorm stableHash contentHash

/-- `lastrowid` of a fresh INSERT: one more than the largest id. -/
def nextContractId (db : List Contract) : Nat :=
  db.foldr (fun c m => max (c.id + 1) m) 1

/-- The UPDATE statement of the matched branch of `add_contract`
(all contract fields overwritten, hashes regenerated; `id` and
`customer_id` are not in its SET list). -/
def updateRow (a : CtArgs) (k : CtComputed) (r : Contract) : Contract :=
  { r with
    company := a.company, product_name := a.product_name,
    policy_no := a.policy_no, policy_no_norm := k.polNorm,
    premium := k.premInt, status := a.status,
    start_date := k.startNorm, end_date := k.endNorm,
    insured_name := a.insured_name, insured_phone := a.insured_phone,
    insured_birth := a.insured_birth, insured_gender := a.insured_gender,
    coverage_summary := a.coverage_summary,
    policyholder_name := k.phName, policyholder_type := k.phType,
    policyholder_norm := k.phNorm, policyholder_phone := k.phPhone,
    primary_role := k.prRole,
    stable_hash := k.stableHash, content_hash := k.contentHash,
    key_hash := k.keyHash }

/-- The INSERT statement of `add_contract`. -/
def newRow (a : CtArgs) (k : CtComputed) (id : Nat) : Contract :=
  { id := id, customer_id := a.customer_id,
    company := a.company, product_name := a.product_name,
    policy_no := a.policy_no, policy_no_norm := k.polNorm,
    premium := k.premInt, status := a.status,
    start_date := k.startNorm, end_date := k.endNorm,
    coverage_summary := a.coverage_summary,
    insured_name := a.insured_name, insured_phone := a.insured_phone,
    insured_birth := a.insured_birth, insured_gender := a.insured_gender,
    policyholder_name := k.phName, policyholder_type := k.phType,
    policyholder_norm := k.phNorm, policyholder_phone := k.phPhone,
    primary_role := k.prRole,
    stable_hash := k.stableHash, key_hash := k.keyHash,
    content_hash := k.contentHash }

/-- `queries.add_contract`.  Returns the classification string and the
resulting `contracts` table.  The two `sqlite3.IntegrityError`
recovery UPDATEs of the source bind 16 parameters to 21 placeholders,
so whenever one of them runs sqlite raises and the outer handler
returns `"fail"` with the transaction rolled back; both recovery
branches are additionally unreachable single-threaded because the
`key_hash` probe in step 1 already saw no conflicting row. -/
def addContractCore (db : List Contract) (a : CtArgs) (k : CtComputed) :
    String × List Contract :=
  match matchCascade db a.customer_id k.polNorm k.stableHash k.keyHash k.contentHash with
  | .ambig => ("ambig", db)
  | .found c =>
    if c.content_hash == k.contentHash then ("same", db)
    else if db.any (fun r => r.id ≠ c.id && r.key_hash == k.keyHash) then
      ("fail", db)
    else ("update", db.map (fun r => if r.id == c.id then updateRow a k r else r))
  | .noMatch =>
    if db.any (fun r => r.key_hash == k.keyHash) then
      match db.find? (fun r => r.key_hash == k.keyHash) with
      | some r => if r.content_hash == k.contentHash then ("same", db) else ("fail", db)
      | none => ("fail", db)
    else ("insert", db ++ [newRow a k (nextContractId db)])

def addContract (db : List Contract) (a : CtArgs) : String × List Contract :=
  addContractCore db a (computeCt a)

-- ---------------------------------------------------------------
-- Customers table, queries.upsert_customer_identity,
-- queries.create_customer_direct
-- ---------------------------------------------------------------

/-- One row of the `customers` table (the columns the reconciliation
engine reads or writes).  Rows are kept in `id` order; `custom_data`
carries the serialized JSON bag as a string. -/
structure Customer where
  id : Nat
  name : String := ""
  phone : String := ""
  phone_norm : String := ""
  match_key : String := ""
  birth_date : String := ""
  gender : String := ""
  region : String := ""
  address : String := ""
  email : String := ""
  source : String := ""
  memo : String := ""
  custom_data : String := ""
deriving Repr, DecidableEq

/-- The keyword arguments of `queries.upsert_customer_identity`. -/
structure CustArgs where
  name : String
  phone : String
  birth_date : String := ""
  gender : String := ""
  region : String := ""
  address : String := ""
  email : String := ""
  source : String := ""
  memo : String := ""
  custom_data : String := ""
  match_key : String := ""
deriving Repr, DecidableEq

/-- `lastrowid` of a fresh customer INSERT. -/
def nextCustomerId (store : List Customer) : Nat :=
  store.foldr (fun c m => max (c.id + 1) m) 1

/-- The UPDATE statement of the phone-matched branch of
`upsert_customer_identity`: each of the five merge fields is
overwritten only when the incoming value is non-empty
(`CASE WHEN ? <> '' THEN ? ELSE old END`). -/
def applyCustomerUpdate (a : CustArgs) (c : Customer) : Customer :=
  { c with
    birth_date := if a.birth_date ≠ "" then a.birth_date else c.birth_date,
    gender := if a.gender ≠ "" then a.gender else c.gender,
    region := if a.region ≠ "" then a.region else c.region,
    email := if a.email ≠ "" then a.email else c.email,
    custom_data := if a.custom_data ≠ "" then a.custom_data else c.custom_data }

/-- `queries.upsert_customer_identity`: spaces are removed from the
name, name/phone are required, then the target customer is selected
solely by `phone_norm` (`LIMIT 1` in `id` order): a hit is merged
non-destructively, otherwise a new row is inserted.  Returns the
`(ok, message, customer_id)` triple and the resulting table. -/
def upsertCustomerIdentity (store : List Customer) (a : CustArgs) :
    (Bool × String × Option Nat) × List Customer :=
  let name := if a.name ≠ "" then pyStrip (removeChar ' ' a.name) else a.name
  if name == "" || a.phone == "" then ((false, "이름/연락처 필수", none), store)
  else
    let phoneNorm := normalizePhone a.phone
    let matchKey := if a.match_key == "" then
        makeMatchKey name (phoneLast4 phoneNorm) else a.match_key
    match store.find? (fun c => c.phone_norm == phoneNorm) with
    | some c =>
      ((true, "Update", some c.id),
       store.map (fun x => if x.id == c.id then applyCustomerUpdate a x else x))
    | none =>
      ((true, "Insert", some (nextCustomerId store)),
       store ++ [{ id := nextCustomerId store, name := name, phone := a.phone,
                   phone_norm := phoneNorm, match_key := matchKey,
                   birth_date := a.birth_date, gender := a.gender,
                   region := a.region, address := a.address, email := a.email,
                   source := a.source, memo := a.memo,
                   custom_data := a.custom_data }])

/-- `queries.create_customer_direct`: unconditional INSERT of a new
customer, deliberately without the upsert-by-phone deduplication.
The `custom_data` dict argument is carried as its serialized string. -/
def createCustomerDirect (store : List Customer)
    (name phone birth_date gender region address email source
     custom_data memo : String) : (Bool × String × Option Nat) × List Customer :=
  let nm := pyStrip name
  let ph := pyStrip phone
  let pn := normalizePhone ph
  let mk := makeMatchKey nm (phoneLast4 ph)
  ((true, "created", some (nextCustomerId store)),
   store ++ [{ id := nextCustomerId store, name := nm, phone := ph,
               phone_norm := pn, match_key := mk,
               birth_date := pyStrip birth_date, gender := pyStrip gender,
               region := pyStrip region, address := pyStrip address,
               email := pyStrip email, source := pyStrip source,
               memo := pyStrip memo, custom_data := custom_data }])

-- ---------------------------------------------------------------
-- smart_import.py: analyze_processed_df and its helpers
-- ---------------------------------------------------------------

/-- `smart_import.normalize_name`: remove every whitespace character
(`re.sub(r"\s+", "", str(name)).strip()`; the trailing strip is a
no-op after all whitespace is gone). -/
def smartNormalizeName (s : String) : String :=
  (s.data.filter (fun c => !pyIsSpace c)).asString

/-- `smart_import._phone_last4_from_raw`. -/
def phoneLast4FromRaw (s : String) : String :=
  let d := (s.data.filter Char.isDigit).asString
  if d.length ≥ 4 then strTakeRight d 4 else ""

/-- The nested financial sub-record of a processed row (`row["financial"]`).
A present-but-empty dict is falsy in Python and is represented as
`none`. -/
structure FinData where
  company : String := ""
  product_name : String := ""
  policy_no : String := ""
  premium : String := ""
  status : String := ""
  start_date : String := ""
  end_date : String := ""
  insured_name : String := ""
  insured_phone : String := ""
  insured_birth : String := ""
  insured_gender : String := ""
  insured_ssn : String := ""
  coverage_summary : String := ""
deriving Repr, DecidableEq

/-- One processed row entering `analyze_processed_df` (the keys the
function reads; absent keys are `""`). -/
structure SIRow where
  name : String := ""
  phone : String := ""
  birth_date : String := ""
  gender : String := ""
  region : String := ""
  address : String := ""
  email : String := ""
  memo : String := ""
  custom_data : String := ""
  match_key : String := ""
  financial : Option FinData := none
deriving Repr, DecidableEq

/-- The identity fields of a row after the policyholder/insured role
split of `analyze_processed_df`: for a corporate policyholder with a
distinct insured party the customer-side fields are rerouted to the
insured person, otherwise they stay with the policyholder. -/
structure EffRow where
  name : String
  phone : String
  phoneNorm : String
  last4 : String
  birth_date : String
  gender : String
  policyholderName : String
  policyholderPhone : String
  policyholderType : String
  policyholderNorm : String
  primaryRole : String
deriving Repr, DecidableEq

def effectiveRow (row : SIRow) : EffRow :=
  let phNameRaw := pyStrip row.name
  let phPhoneRaw := pyStrip row.phone
  let phType := if isCorporateName phNameRaw then "CORP" else "PERSON"
  let phNorm := normOrgName phNameRaw
  let insName := match row.financial with | some f => pyStrip f.insured_name | none => ""
  let insPhone := match row.financial with | some f => pyStrip f.insured_phone | none => ""
  let insBirth := match row.financial with | some f => pyStrip f.insured_birth | none => ""
  let insGender := match row.financial with | some f => pyStrip f.insured_gender | none => ""
  let phCmp := removeChar ' ' phNameRaw
  let inCmp := removeChar ' ' insName
  let primaryRole :=
    if phCmp ≠ "" && inCmp ≠ "" && phCmp == inCmp then "POLICYHOLDER"
    else if phType == "CORP" then "INSURED" else "POLICYHOLDER"
  let nameRaw := if primaryRole == "INSURED" && insName ≠ "" then insName else row.name
  let phoneRaw := if primaryRole == "INSURED" && insName ≠ "" then
      (if insPhone ≠ "" then insPhone else phPhoneRaw) else row.phone
  let birth := if primaryRole == "INSURED" && insName ≠ "" then
      (if insBirth ≠ "" then insBirth else pyStrip row.birth_date)
    else pyStrip row.birth_date
  let gender := if primaryRole == "INSURED" && insName ≠ "" then
      (if insGender ≠ "" then insGender else pyStrip row.gender)
    else pyStrip row.gender
  let phone := pyStrip phoneRaw
  { name := smartNormalizeName nameRaw, phone := phone,
    phoneNorm := if phone ≠ "" then normalizePhone phone else "",
    last4 := phoneLast4FromRaw phoneRaw,
    birth_date := birth, gender := gender,
    policyholderName := phNameRaw, policyholderPhone := phPhoneRaw,
    policyholderType := phType, policyholderNorm := phNorm,
    primaryRole := primaryRole }

/-- `smart_import._fetch_customers_by_phone_norm`
(`ORDER BY id ASC LIMIT 10`). -/
def fetchByPhoneNorm (store : List Customer) (pn : String) : List Customer :=
  (store.filter (fun c => c.phone_norm == pn)).take 10

/-- `smart_import._fetch_customers_by_match_key` (`LIMIT 20`). -/
def fetchByMatchKey (store : List Customer) (mk : String) : List Customer :=
  (store.filter (fun c => c.match_key == mk)).take 20

/-- `smart_import._fetch_customers_by_name_birth`
(`REPLACE(name,' ','') = ?`, optional birth filter, `LIMIT 20`). -/
def fetchByNameBirth (store : List Customer) (nameNorm birth : String) : List Customer :=
  if birth ≠ "" then
    (store.filter (fun c =>
      removeChar ' ' c.name == nameNorm && c.birth_date == birth)).take 20
  else
    (store.filter (fun c => removeChar ' ' c.name == nameNorm)).take 20

/-- `smart_import._fetch_customers_by_name_last4`; SQLite
`substr(COALESCE(phone_norm,''), -4)` yields the last four characters,
or the whole value when shorter. -/
def fetchByNameLast4 (store : List Customer) (nameNorm last4 : String) : List Customer :=
  (store.filter (fun c =>
    removeChar ' ' c.name == nameNorm && strTakeRight c.phone_norm 4 == last4)).take 20

/-- Result of the customer-side matching preview for one row. -/
structure CustClass where
  status : String
  id : Option Nat
  reason : String
  candidates : List Customer
  matchKey : String
deriving Repr, DecidableEq

/-- The customer-matching cascade of `analyze_processed_df` for one
row (the `cust_status`/`cust_id`/`candidates` block).  `matchKey0` is
the row's own `match_key` field, which the phone-less branch may
replace by a freshly derived key. -/
def classifyCustomer (store : List Customer) (e : EffRow) (matchKey0 : String) : CustClass :=
  if e.name ≠ "" && e.phoneNorm ≠ "" then
    let byPhone := fetchByPhoneNorm store e.phoneNorm
    match byPhone with
    | [existing] =>
      let existingNameNorm := smartNormalizeName existing.name
      if existingNameNorm ≠ "" && e.name ≠ "" && existingNameNorm ≠ e.name then
        { status := "보류", id := none,
          reason := "동일 연락처지만 이름 불일치 → 대표님 선택 필요(자동 흡수 금지)",
          candidates := byPhone, matchKey := matchKey0 }
      else
        { status := "변경", id := some existing.id, reason := "연락처 매칭",
          candidates := [], matchKey := matchKey0 }
    | _ :: _ :: _ =>
      { status := "보류", id := none,
        reason := "동일 연락처 고객이 2명 이상(데이터 정리 필요)",
        candidates := byPhone, matchKey := matchKey0 }
    | [] =>
      let byNameBirth := if e.name ≠ "" then fetchByNameBirth store e.name e.birth_date else []
      if !byNameBirth.isEmpty then
        { status := "보류", id := none,
          reason := "동일 이름(±생일) 고객 존재 → 신규 생성 시 중복 위험",
          candidates := byNameBirth, matchKey := matchKey0 }
      else
        { status := "신규", id := none, reason := "신규 고객",
          candidates := [], matchKey := matchKey0 }
  else if e.name ≠ "" then
    let mk := if matchKey0 == "" && e.last4 ≠ "" then makeMatchKey e.name e.last4 else matchKey0
    let r1 : Option CustClass :=
      if mk ≠ "" then
        let byKey := fetchByMatchKey store mk
        if !byKey.isEmpty then
          some { status := "보류", id := none,
                 reason := "match_key 후보 존재(수동 선택 필요)",
                 candidates := byKey, matchKey := mk }
        else none
      else none
    match r1 with
    | some r => r
    | none =>
      let r2 : Option CustClass :=
        if e.last4 ≠ "" then
          let byLast4 := fetchByNameLast4 store e.name e.last4
          if !byLast4.isEmpty then
            some { status := "보류", id := none,
                   reason := "이름+끝4자리 후보 존재(수동 선택 필요)",
                   candidates := byLast4, matchKey := mk }
          else none
        else none
      match r2 with
      | some r => r
      | none =>
        let byName := fetchByNameBirth store e.name ""
        if !byName.isEmpty then
          { status := "보류", id := none, reason := "동명이 고객 존재(수동 확인 필요)",
            candidates := byName, matchKey := mk }
        else
          { status := "실패", id := none,
            reason := "연락처 누락/정규화 불가(신규 생성 불가)",
            candidates := [], matchKey := mk }
  else
    { status := "실패", id := none, reason := "이름 누락",
      candidates := [], matchKey := matchKey0 }

/-- Result record of `smart_import._preview_contract_action`. -/
structure PrevResult where
  status : String
  reason : String
  matchId : Option Nat
deriving Repr, DecidableEq

/-- `smart_import._preview_contract_action`.  The leading global
safety check — a contract with the same normalized policy number on a
*different* customer forces 보류 — executes as written.  Every path
that survives it then calls `queries._contract_key_hash` with the
keyword `policy_no_norm` (not a parameter of that function) and
without its required `start_date`/`premium` arguments, so Python
raises `TypeError` there; `.error ()` models that exception. -/
def previewContractAction (contracts : List Contract) (cid : Int) (fin : FinData) :
    Except Unit PrevResult :=
  let policyNoNorm := normPolicyNo (pyStrip fin.policy_no)
  if policyNoNorm ≠ "" then
    let rowsGlobal := (contracts.filter (fun c => c.policy_no_norm == policyNoNorm)).take 10
    let other := rowsGlobal.filter (fun c => c.customer_id ≠ cid)
    if !other.isEmpty then
      .ok { status := "보류",
            reason := "다른 고객에 동일 증권번호 존재(" ++ toString other.length ++ "건) - 중복 가능",
            matchId := none }
    else .error ()
  else .error ()

/-- The contract-side preview block of `analyze_processed_df` for one
row: `(cont_status, cont_reason, cont_id)`.  A freshly NEW customer
has no id yet (`preview_cid = -1`) and only gets the global
policy-number duplication check. -/
def contractSide (contracts : List Contract) (cc : CustClass) (finOpt : Option FinData) :
    Except Unit (String × String × Option Nat) :=
  match finOpt with
  | none => .ok ("", "", none)
  | some fin =>
    if (cc.status == "변경" || cc.status == "신규") && (cc.id.isSome || cc.status == "신규") then
      match cc.id with
      | none =>
        let policyNoNorm := normPolicyNo (pyStrip fin.policy_no)
        if policyNoNorm ≠ "" then
          let rowsGlobal := (contracts.filter (fun c => c.policy_no_norm == policyNoNorm)).take 10
          if !rowsGlobal.isEmpty then
            .ok ("보류",
              "다른 고객에 동일 증권번호 존재(" ++ toString rowsGlobal.length ++ "건) - 고객 확정 후 재검토",
              none)
          else .ok ("신규", "고객 신규 → 계약도 신규로 저장 예정", none)
        else .ok ("신규", "고객 신규(증권번호 없음) → 계약 신규로 저장 예정", none)
      | some cid =>
        match previewContractAction contracts (Int.ofNat cid) fin with
        | .error u => .error u
        | .ok p => .ok (p.status, p.reason, p.matchId)
    else .ok ("보류", "고객 보류/실패 → 계약 매칭 불가(수동 확인 필요)", none)

/-- One entry of the `rows_out` list built by `analyze_processed_df`
(the keys the verified claims and the downstream hold sync read). -/
structure RowOut where
  seq : Nat := 0
  name : String := ""
  phone : String := ""
  birth_date : String := ""
  gender : String := ""
  region : String := ""
  customer_status : String := ""
  customer_id : Option Nat := none
  customer_reason : String := ""
  customer_candidates : List Customer := []
  contract_status : String := ""
  contract_id : Option Nat := none
  contract_reason : String := ""
  row_status : String := ""
  financial : Option FinData := none
  address : String := ""
  email : String := ""
  memo : String := ""
  custom_data : String := ""
  match_key : String := ""
  policyholder_name : String := ""
  policyholder_phone : String := ""
  policyholder_type : String := ""
  policyholder_norm : String := ""
  primary_role : String := ""
deriving Repr, DecidableEq

/-- The per-row body of the main loop of `analyze_processed_df`
(role split, customer preview, contract preview, final
`row_status = 실패 > 보류 > contract > customer`). -/
def analyzeRow (customers : List Customer) (contracts : List Contract)
    (seq : Nat) (row : SIRow) : Except Unit RowOut :=
  let e := effectiveRow row
  let cc := classifyCustomer customers e (pyStrip row.match_key)
  match contractSide contracts cc row.financial with
  | .error u => .error u
  | .ok (contStatus, contReason, contId) =>
    let rowStatus :=
      if cc.status == "실패" || contStatus == "실패" then "실패"
      else if cc.status == "보류" || contStatus == "보류" then "보류"
      else if contStatus ≠ "" then contStatus else cc.status
    .ok { seq := seq, name := e.name, phone := e.phone,
          birth_date := e.birth_date, gender := e.gender,
          region := pyStrip row.region,
          customer_status := cc.status, customer_id := cc.id,
          customer_reason := cc.reason, customer_candidates := cc.candidates,
          contract_status := contStatus, contract_id := contId,
          contract_reason := contReason, row_status := rowStatus,
          financial := row.financial,
          address := pyStrip row.address, email := pyStrip row.email,
          memo := pyStrip row.memo, custom_data := row.custom_data,
          match_key := cc.matchKey,
          policyholder_name := e.policyholderName,
          policyholder_phone := e.policyholderPhone,
          policyholder_type := e.policyholderType,
          policyholder_norm := e.policyholderNorm,
          primary_role := e.primaryRole }

/-- The sequential main loop: the first row whose contract preview
raises aborts the whole analysis (the `TypeError` of
`_preview_contract_action` is not caught anywhere in
`analyze_processed_df`). -/
def analyzeRows (customers : List Customer) (contracts : List Contract) :
    (seq : Nat) → List SIRow → Except Unit (List RowOut)
  | _, [] => .ok []
  | seq, r :: rs =>
    match analyzeRow customers contracts seq r with
    | .error u => .error u
    | .ok out =>
      match analyzeRows customers contracts (seq + 1) rs with
      | .error u => .error u
      | .ok outs => .ok (out :: outs)

/-- The `(phone_norm, name_norm)` pairs collected into
`phone_to_names` (only rows with both parts non-empty count). -/
def conflictPairs (outs : List RowOut) : List (String × String) :=
  outs.filterMap (fun r =>
    let pn := normalizePhone r.phone
    let nm := smartNormalizeName r.name
    if pn ≠ "" && nm ≠ "" then some (pn, nm) else none)

/-- Does the batch carry two different names under this phone
(`len(names) > 1` for the per-phone name set)? -/
def isConflictPhone (pairs : List (String × String)) (pn : String) : Bool :=
  pairs.any (fun a => a.1 == pn && pairs.any (fun b => b.1 == pn && b.2 ≠ a.2))

/-- The sorted distinct names for a conflicting phone
(`sorted(phone_to_names.get(pn))`). -/
def conflictNames (pairs : List (String × String)) (pn : String) : List String :=
  (((pairs.filter (fun a => a.1 == pn)).map (fun a => a.2)).dedup).mergeSort
    (fun a b => a ≤ b)

/-- The batch-internal conflict escalation of `analyze_processed_df`:
a row whose phone appears with two different names in the same file is
forced to 보류 on the customer side, the row status and (unless
already held or failed) the contract side. -/
def escalateRow (pairs : List (String × String)) (r : RowOut) : RowOut :=
  let pn := normalizePhone r.phone
  if pn == "" || !isConflictPhone pairs pn then r
  else
    let names := conflictNames pairs pn
    let r := if r.customer_status ≠ "실패" then
        { r with
          customer_status := "보류",
          customer_reason :=
            ("업로드 파일 내부 동일 연락처에 서로 다른 이름 존재 → 수동 결정 필요(" ++
              String.intercalate ", " names ++ ")") }
      else r
    let r := if r.row_status ≠ "실패" then { r with row_status := "보류" } else r
    if r.contract_status ≠ "실패" && r.contract_status ≠ "보류" then
      { r with
        contract_status := "보류",
        contract_reason := "고객 보류(파일 내부 중복 연락처) → 계약 매칭/반영 보류" }
    else r

/-- `smart_import.analyze_processed_df`, reduced to its `rows` output
(the `summary` dict is a display-only aggregation of the statuses
below and is not modelled). -/
def analyzeProcessedDf (customers : List Customer) (contracts : List Contract)
    (rows : List SIRow) : Except Unit (List RowOut) :=
  match analyzeRows customers contracts 1 rows with
  | .error u => .error u
  | .ok outs => .ok (outs.map (escalateRow (conflictPairs outs)))

-- ---------------------------------------------------------------
-- queries.bulk_import_masked_contracts
-- ---------------------------------------------------------------

/-- A spreadsheet row of the masked-contract bulk import: named cells
(`_pick` probes several synonymous column headers). -/
def MaskedRow := List (String × String)

/-- `queries._pick`: first listed key present with a non-blank value,
stripped. -/
def pick (row : MaskedRow) (keys : List String) : String :=
  match keys with
  | [] => ""
  | k :: ks =>
    match List.find? (fun kv => kv.1 == k) row with
    | some kv => if pyStrip kv.2 ≠ "" then pyStrip kv.2 else pick row ks
    | none => pick row ks

/-- The counters of `bulk_import_masked_contracts`
(`new_cont/update_cont/same_cont/hold_cont/failed/ambig`). -/
structure BulkStats where
  inserted : Nat := 0
  updated : Nat := 0
  same : Nat := 0
  hold : Nat := 0
  failed : Nat := 0
  ambig : Nat := 0
deriving Repr, DecidableEq

/-- One iteration of the `bulk_import_masked_contracts` loop:
match-key shortlist, then the name-pattern check — which the source
invokes as `utils.is_name_match(masked_name, real_name)`, i.e. with
the row's masked name in the `real_name` position and the stored real
name in the wildcard-bearing `masked_input` position — then
`add_contract` under the unique surviving candidate. -/
def bulkStep (customers : List Customer) (acc : BulkStats × List Contract)
    (row : MaskedRow) : BulkStats × List Contract :=
  let (s, db) := acc
  let maskedName := pick row ["이름", "고객명", "피보험자", "계약자"]
  let phone := pick row ["연락처", "휴대폰", "휴대전화"]
  let mk := makeMatchKey maskedName (phoneLast4 phone)
  if mk == "" then ({ s with failed := s.failed + 1 }, db)
  else
    let candidates := customers.filter (fun c => c.match_key == mk)
    if candidates.isEmpty then ({ s with failed := s.failed + 1 }, db)
    else
      let valid := candidates.filter (fun c => isNameMatch maskedName c.name)
      if valid.length > 1 then ({ s with ambig := s.ambig + 1 }, db)
      else
        match valid with
        | [] => ({ s with failed := s.failed + 1 }, db)
        | c :: _ =>
          let premium := normPremium (pick row ["보험료", "납입보험료", "월보험료", "보험료(월)"])
          let (res, db') := addContract db
            { customer_id := Int.ofNat c.id,
              company := pick row ["보험사", "회사", "보험회사"],
              product_name := pick row ["상품명", "상품", "담보", "보험상품"],
              policy_no := pick row ["증권번호", "증권", "증서번호", "증번호", "계약번호", "폴리시번호", "policy_no"],
              premium := toString premium,
              status := pick row ["상태", "계약상태"],
              start_date := pick row ["계약일", "청약일", "가입일", "개시일"],
              end_date := pick row ["만기일", "해지일", "종료일"] }
          if res == "insert" then ({ s with inserted := s.inserted + 1 }, db')
          else if res == "update" then ({ s with updated := s.updated + 1 }, db')
          else if res == "same" then ({ s with same := s.same + 1 }, db')
          else if res == "ambig" then ({ s with hold := s.hold + 1 }, db')
          else ({ s with failed := s.failed + 1 }, db')

/-- `queries.bulk_import_masked_contracts`, reduced to its counters
and the resulting contracts table (the progress callback and the
formatted summary message are presentation only). -/
def bulkImportMaskedContracts (customers : List Customer) (contracts : List Contract)
    (df : List MaskedRow) : BulkStats × List Contract :=
  df.foldl (bulkStep customers) ({}, contracts)

-- ---------------------------------------------------------------
-- Hold store: queries.find_customer_candidates,
-- queries.sync_upload_holds, queries.apply_upload_hold_decision
-- ---------------------------------------------------------------

/-- One entry of the candidate list produced by
`queries.find_customer_candidates`. -/
structure Candidate where
  id : Nat
  name : String
  phone : String
  birth_date : String
  score : Nat
  reason : String
deriving Repr, DecidableEq

/-- Python-dict put keyed by `id` (overwrite in place, else append;
insertion order is preserved). -/
def seenPut (seen : List Candidate) (c : Candidate) : List Candidate :=
  if seen.any (fun x => x.id == c.id) then
    seen.map (fun x => if x.id == c.id then c else x)
  else seen ++ [c]

/-- Python-dict put-if-absent keyed by `id`. -/
def seenAdd (seen : List Candidate) (c : Candidate) : List Candidate :=
  if seen.any (fun x => x.id == c.id) then seen else seen ++ [c]

/-- `queries.find_customer_candidates`: phone_norm hits (score 100),
match-key hits surviving the name-pattern check (score 70; the source
again passes the incoming name as `is_name_match`'s first argument),
name+birth hits (score 80); each query runs `ORDER BY id DESC LIMIT
limit`, and the merged map is sorted by descending score then
descending id. -/
def findCustomerCandidates (store : List Customer)
    (name phone birth_date : String) (limit : Nat) : List Candidate :=
  let nm := pyStrip name
  let ph := pyStrip phone
  let pn := normalizePhone ph
  let mk := makeMatchKey nm (phoneLast4 ph)
  let bd := pyStrip birth_date
  let seen : List Candidate := []
  let seen := if pn ≠ "" then
      ((store.filter (fun c => c.phone_norm == pn)).reverse.take limit).foldl
        (fun s c => seenPut s
          { id := c.id, name := c.name, phone := c.phone,
            birth_date := c.birth_date, score := 100, reason := "phone" }) seen
    else seen
  let seen := if mk ≠ "" then
      ((store.filter (fun c => c.match_key == mk)).reverse.take limit).foldl
        (fun s c =>
          if nm ≠ "" && !isNameMatch nm c.name then s
          else seenAdd s
            { id := c.id, name := c.name, phone := c.phone,
              birth_date := c.birth_date, score := 70, reason := "match_key" }) seen
    else seen
  let seen := if nm ≠ "" && bd ≠ "" then
      ((store.filter (fun c =>
          removeChar ' ' c.name == removeChar ' ' nm && c.birth_date == bd)).reverse.take limit).foldl
        (fun s c => seenAdd s
          { id := c.id, name := c.name, phone := c.phone,
            birth_date := c.birth_date, score := 80, reason := "name_birth" }) seen
    else seen
  (seen.mergeSort (fun a b =>
    a.score > b.score || (a.score == b.score && a.id ≥ b.id))).take limit

/-- `queries._reason_code_from_row` (the analysis rows carry no
`row_reason` key, so that component is empty). -/
def reasonCodeFromRow (r : RowOut) : String :=
  let msg := pyStrip (r.customer_reason ++ " " ++ "" ++ " " ++ r.contract_reason)
  if strContains msg "파일 내부" && strContains msg "연락처" && strContains msg "서로 다른" then
    "PHONE_NAME_CONFLICT_FILE"
  else if strContains msg "동일 연락처" && strContains msg "이름" && strContains msg "불일치" then
    "PHONE_NAME_MISMATCH_DB"
  else if strContains msg "동일 연락처 고객이 2명 이상" then "PHONE_DUP_DB"
  else if strContains msg "필수" || strContains msg "없음" then "REQUIRED_MISSING"
  else "HOLD"

/-- The `normalized_json` snapshot stored with a hold. -/
structure NormSnapshot where
  name_norm : String := ""
  phone_norm : String := ""
  birth_date : String := ""
deriving Repr, DecidableEq

/-- The `corrected_json` overlay of a hold (`none` models the empty
string the INSERT writes). -/
structure CorrSnapshot where
  name : String := ""
  phone : String := ""
  birth_date : String := ""
deriving Repr, DecidableEq

/-- The `candidates_json` column: either the analysis row's customer
candidates or a freshly computed scored list. -/
inductive CandData where
  | fromRow : List Customer → CandData
  | computed : List Candidate → CandData
deriving Repr, DecidableEq

/-- The `row_payload_json` snapshot stored with a hold (the analysis
rows carry no `source` key, so it is empty). -/
structure RowPayload where
  seq : Nat := 0
  name : String := ""
  phone : String := ""
  birth_date : String := ""
  gender : String := ""
  region : String := ""
  address : String := ""
  email : String := ""
  source : String := ""
  memo : String := ""
  custom_data : String := ""
  policyholder_name : String := ""
  policyholder_phone : String := ""
  policyholder_type : String := ""
  policyholder_norm : String := ""
  primary_role : String := ""
  financial : Option FinData := none
deriving Repr, DecidableEq

def rowPayloadOf (r : RowOut) : RowPayload :=
  { seq := r.seq, name := r.name, phone := r.phone,
    birth_date := r.birth_date, gender := r.gender, region := r.region,
    address := r.address, email := r.email, source := "", memo := r.memo,
    custom_data := r.custom_data,
    policyholder_name := r.policyholder_name,
    policyholder_phone := r.policyholder_phone,
    policyholder_type := r.policyholder_type,
    policyholder_norm := r.policyholder_norm,
    primary_role := r.primary_role,
    financial := r.financial }

def normSnapshotOf (r : RowOut) : NormSnapshot :=
  { name_norm := removeChar ' ' (pyStrip r.name),
    phone_norm := normalizePhone r.phone,
    birth_date := pyStrip r.birth_date }

/-- One row of the `upload_holds` table (UNIQUE(file_hash, row_no);
the JSON columns are carried as the structured values they
serialize; timestamps are not modelled). -/
structure Hold where
  id : Nat
  file_hash : String := ""
  row_no : Nat := 0
  filename : String := ""
  reason_code : String := ""
  reason_msg : String := ""
  status : String := ""
  raw : RowOut := {}
  normalized : NormSnapshot := {}
  corrected : Option CorrSnapshot := none
  candidates : CandData := .fromRow []
  payload : RowPayload := {}
deriving Repr, DecidableEq

/-- `lastrowid` of a fresh hold INSERT. -/
def nextHoldId (holds : List Hold) : Nat :=
  holds.foldr (fun h m => max (h.id + 1) m) 1

/-- The reason message `sync_upload_holds` stores: first non-empty of
the customer reason, the contract reason, the literal 보류; stripped. -/
def syncReasonMsg (r : RowOut) : String :=
  pyStrip
    (if r.customer_reason ≠ "" then r.customer_reason
     else if r.contract_reason ≠ "" then r.contract_reason
     else "보류")

/-- The candidate list `sync_upload_holds` stores: the analysis row's
own candidates, else a freshly computed list (limit 20). -/
def syncCandidates (customers : List Customer) (r : RowOut) : CandData :=
  if !r.customer_candidates.isEmpty then .fromRow r.customer_candidates
  else .computed (findCustomerCandidates customers r.name r.phone r.birth_date 20)

/-- The in-place refresh UPDATE of `sync_upload_holds` for an existing
non-RESOLVED hold; an empty status becomes OPEN, any other survives
(`COALESCE(NULLIF(status,''),'OPEN')`). -/
def refreshHold (customers : List Customer) (filename : String) (r : RowOut)
    (g : Hold) : Hold :=
  { g with
    filename := filename, reason_code := reasonCodeFromRow r,
    reason_msg := syncReasonMsg r,
    status := if g.status == "" then "OPEN" else g.status,
    raw := r, normalized := normSnapshotOf r,
    candidates := syncCandidates customers r, payload := rowPayloadOf r }

/-- The INSERT of `sync_upload_holds` for a fresh hold (status OPEN,
empty correction overlay). -/
def newHold (customers : List Customer) (fileHash filename : String) (r : RowOut)
    (id : Nat) : Hold :=
  { id := id, file_hash := fileHash, row_no := r.seq, filename := filename,
    reason_code := reasonCodeFromRow r, reason_msg := syncReasonMsg r,
    status := "OPEN", raw := r, normalized := normSnapshotOf r,
    corrected := none, candidates := syncCandidates customers r,
    payload := rowPayloadOf r }

/-- One iteration of the `sync_upload_holds` loop: only held rows with
a positive row number are processed; an existing RESOLVED record for
the same `(file_hash, row_no)` is skipped outright; an existing
non-RESOLVED record is refreshed in place; a missing record is
inserted.  Returns the `synced` increment together with the new
table. -/
def syncStep (customers : List Customer) (fileHash filename : String)
    (acc : Nat × List Hold) (r : RowOut) : Nat × List Hold :=
  let (n, holds) := acc
  if r.row_status ≠ "보류" then (n, holds)
  else if r.seq == 0 then (n, holds)
  else
    match holds.find? (fun h => h.file_hash == fileHash && h.row_no == r.seq) with
    | some ex =>
      if ex.status == "RESOLVED" then (n, holds)
      else
        (n + 1, holds.map (fun h =>
          if h.id == ex.id then refreshHold customers filename r h else h))
    | none =>
      (n + 1, holds ++ [newHold customers fileHash filename r (nextHoldId holds)])

/-- `queries.sync_upload_holds`: fold the analyzed rows into the
`upload_holds` table; returns the `synced` count and the table. -/
def syncUploadHolds (customers : List Customer) (holds : List Hold)
    (fileHash filename : String) (rows : List RowOut) : Nat × List Hold :=
  if rows.isEmpty then (0, holds)
  else rows.foldl (syncStep customers fileHash filename) (0, holds)

/-- One append-only `hold_decisions` record (its free-form
`decision_json` payload is diagnostics and is not modelled). -/
structure HoldDecision where
  hold_id : Nat
  decision : String
  target_customer_id : Option Nat
  decided_by : String
deriving Repr, DecidableEq

/-- One append-only `approval_proofs` record (its `approval_json`
payload is diagnostics and is not modelled). -/
structure ApprovalProof where
  hold_id : Nat
  approval : String
  approved_by : String
deriving Repr, DecidableEq

/-- The persistent state `apply_upload_hold_decision` works on.  The
append-only `audit_logs` table is pure diagnostics and is not
modelled. -/
structure HoldState where
  holds : List Hold := []
  customers : List Customer := []
  contracts : List Contract := []
  decisions : List HoldDecision := []
  approvals : List ApprovalProof := []
deriving Repr, DecidableEq

/-- `queries.set_upload_hold_status_by_file_row`. -/
def setUploadHoldStatusByFileRow (holds : List Hold) (fileHash : String)
    (rowNo : Nat) (status : String) : List Hold :=
  holds.map (fun h =>
    if h.file_hash == fileHash && h.row_no == rowNo then
      { h with status := asciiUpper (if status == "" then "OPEN" else status) }
    else h)

/-- Outcome of a Python call that can either return a value or let an
exception escape; in both cases the committed state at that moment is
carried alongside. -/
inductive PyOutcome (α : Type) where
  | ret : α → PyOutcome α
  | exn : PyOutcome α
deriving Repr, DecidableEq

/-- First non-empty of the correction overlay and the stored payload
value (`corr.get(k) or payload.get(k) or ""`), stripped. -/
def effField (corrVal payloadVal : String) : String :=
  pyStrip (if corrVal ≠ "" then corrVal else payloadVal)

/-- `queries.apply_upload_hold_decision`.  Faithful up to the three
places where the source itself raises:
* a non-`none` `corrected` argument reaches
  `update_upload_hold_corrected`, whose body calls the undefined name
  `normalize_birth` (queries.py defines no such function and imports
  none), so a `NameError` escapes before anything is written;
* both the MAP_EXISTING and CREATE_NEW paths then call
  `add_contract(..., insured_ssn=...)` — a keyword `add_contract` does
  not accept — and bind its single string return to the tuple
  `(c_ok, c_action)`, so a `TypeError` escapes before `add_contract`
  runs (for CREATE_NEW the new customer row has already been
  committed by `create_customer_direct` on its own connection).
`PyOutcome.exn` models the escaping exception; the returned state is
what was committed up to that point. -/
def applyUploadHoldDecision (st : HoldState) (holdId : Nat) (decision : String)
    (targetCustomerId : Option Nat) (corrected : Option CorrSnapshot)
    (decidedBy : String) : PyOutcome (Bool × String) × HoldState :=
  match st.holds.find? (fun h => h.id == holdId) with
  | none => (.ret (false, "보류 항목을 찾을 수 없음"), st)
  | some hold =>
    let dec := pyStrip (asciiUpper decision)
    match corrected with
    | some _ => (.exn, st)
    | none =>
      if dec == "SKIP" then
        let holds := setUploadHoldStatusByFileRow st.holds hold.file_hash hold.row_no "SKIPPED"
        (.ret (true, "스킵 처리됨(SKIPPED)"),
         { st with
           holds := holds,
           decisions := st.decisions ++
             [{ hold_id := holdId, decision := dec, target_customer_id := none,
                decided_by := pyStrip decidedBy }],
           approvals := st.approvals ++
             [{ hold_id := holdId, approval := "APPROVED",
                approved_by := pyStrip decidedBy }] })
      else if dec == "MAP_EXISTING" then
        match targetCustomerId with
        | none => (.ret (false, "기존 고객 매핑을 위해 대상 고객을 선택해야 함"), st)
        | some t =>
          if t == 0 then (.ret (false, "기존 고객 매핑을 위해 대상 고객을 선택해야 함"), st)
          else (.exn, st)
      else if dec == "CREATE_NEW" then
        let corrName := match hold.corrected with | some c => c.name | none => ""
        let corrPhone := match hold.corrected with | some c => c.phone | none => ""
        let corrBirth := match hold.corrected with | some c => c.birth_date | none => ""
        let effName := effField corrName hold.payload.name
        let effPhone := effField corrPhone hold.payload.phone
        let effBirth := effField corrBirth hold.payload.birth_date
        let (_, customers) := createCustomerDirect st.customers effName effPhone
          effBirth hold.payload.gender hold.payload.region hold.payload.address
          hold.payload.email
          (if hold.payload.source ≠ "" then hold.payload.source else "upload_hold")
          hold.payload.custom_data hold.payload.memo
        (.exn, { st with customers := customers })
      else (.ret (false, "알 수 없는 결정"), st)

-- ---------------------------------------------------------------
-- Concrete example inputs used by witnesses and counterexamples
-- ---------------------------------------------------------------

/-- A stored contract owned by customer 2 with normalized policy
number AB123. -/
def exC1Stored : Contract :=
  { id := 1, customer_id := 2, company := "삼성화재", policy_no := "AB123",
    policy_no_norm := "AB123", key_hash := "sha1:P|2|삼성화재|AB123",
    stable_hash := "sha1:S-other", content_hash := "sha1:c-other" }

/-- An `add_contract` call for customer 1 whose policy number
normalizes to the same AB123. -/
def exC1Args : CtArgs :=
  { customer_id := 1, company := "삼성화재", product_name := "암보험",
    policy_no := "ab-123", premium := "10000", status := "유지",
    start_date := "2024-01-01", insured_name := "홍길동" }

/-- The same collision presented to the analyze-phase preview. -/
def exC1Fin : FinData := { policy_no := "ab-123" }

/-- A held analysis row with a contract payload. -/
def exRowHeld : RowOut :=
  { seq := 1, name := "김철수", phone := "010-1111-2222",
    customer_status := "보류", customer_reason := "동일 연락처지만 이름 불일치",
    row_status := "보류",
    financial := some { company := "삼성화재", policy_no := "AB-1" } }

/-- An OPEN hold for that row. -/
def exHold : Hold :=
  { id := 1, file_hash := "F", row_no := 1, filename := "f.xlsx",
    reason_code := "PHONE_NAME_MISMATCH_DB", reason_msg := "동일 연락처지만 이름 불일치",
    status := "OPEN", raw := exRowHeld, normalized := normSnapshotOf exRowHeld,
    corrected := none, candidates := .fromRow [], payload := rowPayloadOf exRowHeld }

/-- A hold-store state carrying that hold and an existing target
customer. -/
def exHoldState : HoldState :=
  { holds := [exHold],
    customers := [{ id := 1, name := "박민수", phone := "010-3333-4444",
                    phone_norm := "01033334444" }] }

/-- A stored customer reachable by phone match. -/
def exPhoneCustomer : Customer :=
  { id := 1, name := "박영수", phone := "010-9999-8888",
    phone_norm := "01099998888", birth_date := "19800101" }

/-- Arguments matching `exPhoneCustomer` by phone, with a space inside
the name. -/
def exC10Args : CustArgs :=
  { name := "김 철수", phone := "010-9999-8888" }

/-- Arguments matching `exPhoneCustomer` by phone, with a blank birth
date and a populated gender. -/
def exC9Args : CustArgs :=
  { name := "박영수", phone := "010-9999-8888", birth_date := "", gender := "M" }

/-- A stored customer for the phone-reuse scenario. -/
def exC2Cust : Customer :=
  { id := 1, name := "이영희", phone := "010-1234-5678",
    phone_norm := "01012345678", match_key := "이5678" }

def exC2Store : List Customer := [exC2Cust]

/-- An incoming row reusing that phone under a different name. -/
def exC2Row : SIRow := { name := "김철수", phone := "010-1234-5678" }

/-- The analysis output of that one-row batch. -/
def exC2Out : List RowOut :=
  (analyzeProcessedDf exC2Store [] [exC2Row]).toOption.getD []

/-- Two rows of one batch sharing a phone under different names. -/
def exC7RowA : SIRow := { name := "김철수", phone := "010-1111-2222" }

def exC7RowB : SIRow := { name := "박영희", phone := "010 1111 2222" }

/-- The analysis output of that two-row batch over an empty store. -/
def exC7Out : List RowOut :=
  (analyzeProcessedDf [] [] [exC7RowA, exC7RowB]).toOption.getD []

def exC7ri : RowOut := (exC7Out[0]?).getD {}

def exC7rj : RowOut := (exC7Out[1]?).getD {}

-- ===============================================================
-- Theorems
-- ===============================================================

theorem nameMatchLoop_iff (rs ms : List Char) (hlen : rs.length = ms.length) :
    nameMatchLoop rs ms = true ↔
      List.Forall₂ (fun r m => r = m ∨ m ∈ ['*', '?', 'X', 'x']) rs ms := by
  induction rs generalizing ms with
  | nil =>
    cases ms with
    | nil => simp [nameMatchLoop]
    | cons m ms => simp at hlen
  | cons r rs ih =>
    cases ms with
    | nil => simp at hlen
    | cons m ms =>
      simp only [List.length_cons, Nat.succ.injEq] at hlen
      constructor
      · intro h
        rw [nameMatchLoop] at h
        by_cases hw : (m == '*' || m == '?' || m == 'X' || m == 'x') = true
        · rw [if_pos hw] at h
          refine List.Forall₂.cons (Or.inr ?_) ((ih ms hlen).mp h)
          simp only [Bool.or_eq_true, beq_iff_eq] at hw
          simp only [List.mem_cons, List.not_mem_nil, or_false]
          tauto
        · rw [if_neg hw] at h
          by_cases hr : r = m
          · simp only [hr, ne_eq, not_true_eq_false, if_false] at h
            exact List.Forall₂.cons (Or.inl hr) ((ih ms hlen).mp h)
          · simp only [ne_eq, hr, not_false_eq_true, if_true] at h
            exact absurd h (by simp)
      · intro h
        rcases h with - | ⟨hrm, htl⟩
        rw [nameMatchLoop]
        by_cases hw : (m == '*' || m == '?' || m == 'X' || m == 'x') = true
        · rw [if_pos hw]; exact (ih ms hlen).mpr htl
        · rw [if_neg hw]
          rcases hrm with hrm | hrm
          · simp only [ne_eq, hrm, not_true_eq_false, if_false]
            exact (ih ms hlen).mpr htl
          · exact absurd hw (by simp at hrm ⊢; rcases hrm with h | h | h | h <;> simp [h])

/-- C6: for non-empty inputs, `is_name_match(real_name, masked_input)`
is true exactly when the two stripped strings are pointwise equal up
to the wildcard markers `*`, `?`, `X`, `x` in the masked input (which
forces equal lengths); in particular 홍길동/홍\*동 matches, 홍길동/홍\*서
does not, and 홍길동/홍\*동\* fails on length. -/
theorem C6_is_name_match_contract :
    (∀ r m : String, r ≠ "" → m ≠ "" →
      (isNameMatch r m = true ↔ specNameMatch r m)) ∧
    isNameMatch "홍길동" "홍*동" = true ∧
    isNameMatch "홍길동" "홍*서" = false ∧
    isNameMatch "홍길동" "홍*동*" = false := by
  refine ⟨?_, by decide, by decide, by decide⟩
  intro r m hr hm
  unfold isNameMatch specNameMatch
  have hg : (r == "" || m == "") = false := by
    simp only [Bool.or_eq_false_iff, beq_eq_false_iff_ne, ne_eq]
    exact ⟨hr, hm⟩
  rw [hg]
  simp only [Bool.false_eq_true, if_false]
  by_cases hlen : (stripChars r.data).length = (stripChars m.data).length
  · rw [if_neg (by omega)]
    exact nameMatchLoop_iff _ _ hlen
  · rw [if_pos (by omega)]
    constructor
    · intro h; exact absurd h (by simp)
    · intro h; exact absurd (List.Forall₂.length_eq h) hlen

/-- Witness for C6 at the concrete masked pair from the spec. -/
theorem C6_witness :
    (("홍길동" : String) ≠ "" ∧ ("홍*동" : String) ≠ "") ∧
    (isNameMatch "홍길동" "홍*동" = true ↔ specNameMatch "홍길동" "홍*동") :=
  ⟨⟨by decide, by decide⟩,
   C6_is_name_match_contract.1 "홍길동" "홍*동" (by decide) (by decide)⟩

/-- C5 (code-bug evaluation): the store holds exactly one customer
matching the row's match key, named 홍길동, and the row carries the
masked name 홍\*동 — yet the bulk import rejects the candidate and
writes no contract, because the source calls
`utils.is_name_match(masked_name, real_name)` with the arguments
swapped, so the wildcard is honoured in the stored name instead of
the masked input: the swapped call is false while the
documented-direction call is true. -/
theorem C5_masked_row_rejected :
    bulkImportMaskedContracts
        [{ id := 1, name := "홍길동", phone := "010-1111-1234",
           phone_norm := "01011111234", match_key := "홍1234" }] []
        [[("이름", "홍*동"), ("연락처", "010-1111-1234"),
          ("보험사", "삼성화재"), ("증권번호", "AB-1")]] =
      ({ failed := 1 }, []) ∧
    isNameMatch "홍*동" "홍길동" = false ∧
    isNameMatch "홍길동" "홍*동" = true := by
  refine ⟨by decide, by decide, by decide⟩

/-- C1 counterexample: `add_contract` called for customer 1 with
policy number "ab-123" (normalizing to "AB123") while customer 2
already owns a contract with `policy_no_norm` "AB123" returns
"insert" and appends a new contract row — it does not classify the
call as "ambig": `add_contract` itself contains no cross-customer
policy check. -/
theorem C1_add_contract_cross_customer_insert :
    normPolicyNo exC1Args.policy_no = "AB123" ∧
    exC1Stored.policy_no_norm = "AB123" ∧
    exC1Stored.customer_id ≠ exC1Args.customer_id ∧
    (addContract [exC1Stored] exC1Args).1 = "insert" ∧
    (addContract [exC1Stored] exC1Args).2 =
      [exC1Stored, newRow exC1Args (computeCt exC1Args) 2] :=
  ⟨by decide, by decide, by decide, by decide, by decide⟩

/-- C1 (amended): the cross-customer policy-number safety check is
performed by the analyze-phase preview, not by `add_contract`:
whenever a row's normalized policy number is non-empty and the (up to
ten) stored contracts carrying it include one owned by a different
customer, `_preview_contract_action` classifies the contract as 보류
(HOLD) with no matched contract id. -/
theorem C1_preview_blocks_cross_customer_policy
    (contracts : List Contract) (cid : Int) (fin : FinData)
    (hpol : normPolicyNo (pyStrip fin.policy_no) ≠ "")
    (hother : ((contracts.filter
        (fun c => c.policy_no_norm == normPolicyNo (pyStrip fin.policy_no))).take 10).any
        (fun c => c.customer_id ≠ cid) = true) :
    ∃ p, previewContractAction contracts cid fin = .ok p ∧
      p.status = "보류" ∧ p.matchId = none := by
  simp only [previewContractAction]
  rw [if_pos hpol]
  have hne : (((contracts.filter
      (fun c => c.policy_no_norm == normPolicyNo (pyStrip fin.policy_no))).take 10).filter
      (fun c => c.customer_id ≠ cid)).isEmpty = false := by
    obtain ⟨x, hx, hpx⟩ := List.any_eq_true.mp hother
    have : x ∈ (((contracts.filter
        (fun c => c.policy_no_norm == normPolicyNo (pyStrip fin.policy_no))).take 10).filter
        (fun c => c.customer_id ≠ cid)) := List.mem_filter.mpr ⟨hx, hpx⟩
    cases hl : (((contracts.filter
        (fun c => c.policy_no_norm == normPolicyNo (pyStrip fin.policy_no))).take 10).filter
        (fun c => c.customer_id ≠ cid)) with
    | nil => rw [hl] at this; exact absurd this (List.not_mem_nil x)
    | cons a l => rfl
  rw [hne]
  exact ⟨_, rfl, rfl, rfl⟩

/-- Witness for the amended C1 at the concrete collision input. -/
theorem C1_preview_witness :
    (normPolicyNo (pyStrip exC1Fin.policy_no) ≠ "" ∧
     ((([exC1Stored] : List Contract).filter
        (fun c => c.policy_no_norm == normPolicyNo (pyStrip exC1Fin.policy_no))).take 10).any
        (fun c => c.customer_id ≠ (1 : Int)) = true) ∧
    (∃ p, previewContractAction [exC1Stored] 1 exC1Fin = .ok p ∧
      p.status = "보류" ∧ p.matchId = none) :=
  ⟨⟨by decide, by decide⟩,
   C1_preview_blocks_cross_customer_policy [exC1Stored] 1 exC1Fin (by decide) (by decide)⟩

/-- C4 (code-bug evaluation): for every state whose hold store
resolves the given hold id, deciding MAP_EXISTING with a non-zero
target customer makes `apply_upload_hold_decision` raise (the
`add_contract(..., insured_ssn=...)` call uses a keyword
`add_contract` does not accept and unpacks the string return as a
pair) and leaves the entire state — in particular the hold's status —
unchanged: the held contract is never reconciled and the hold never
transitions to RESOLVED. -/
theorem C4_apply_decision_raises (st : HoldState) (holdId : Nat) (h : Hold)
    (hfind : st.holds.find? (fun x => x.id == holdId) = some h)
    (t : Nat) (ht : t ≠ 0) (decidedBy : String) :
    applyUploadHoldDecision st holdId "MAP_EXISTING" (some t) none decidedBy =
      (.exn, st) := by
  have h1 : (pyStrip (asciiUpper "MAP_EXISTING") == "SKIP") = false := by decide
  have h2 : (pyStrip (asciiUpper "MAP_EXISTING") == "MAP_EXISTING") = true := by decide
  have h3 : ¬ ((t == 0) = true) := by simpa using ht
  simp only [applyUploadHoldDecision, hfind, h1, h2, Bool.false_eq_true, if_false,
    if_true]
  rw [if_neg h3]

/-- Witness for C4: the concrete open hold of `exHoldState`. -/
theorem C4_witness :
    exHoldState.holds.find? (fun x => x.id == 1) = some exHold ∧
    (1 : Nat) ≠ 0 ∧
    applyUploadHoldDecision exHoldState 1 "MAP_EXISTING" (some 1) none "" =
      (.exn, exHoldState) :=
  ⟨by decide, by decide,
   C4_apply_decision_raises exHoldState 1 exHold (by decide) 1 (by decide) ""⟩

/-- C9: whenever `upsert_customer_identity` takes its UPDATE path, the
matched customer was selected by `phone_norm` and is rewritten by
`applyCustomerUpdate`, whose five merge fields (birth_date, gender,
region, email, custom_data) each keep the stored value exactly when
the incoming value is blank and take the incoming value otherwise. -/
theorem C9_update_merge_nondestructive (store : List Customer) (a : CustArgs) (cid : Nat)
    (h : (upsertCustomerIdentity store a).1 = (true, "Update", some cid)) :
    (∃ c, store.find? (fun x => x.phone_norm == normalizePhone a.phone) = some c ∧
      c.id = cid ∧
      (upsertCustomerIdentity store a).2 =
        store.map (fun x => if x.id == c.id then applyCustomerUpdate a x else x)) ∧
    ∀ x : Customer,
      (applyCustomerUpdate a x).birth_date =
        (if a.birth_date = "" then x.birth_date else a.birth_date) ∧
      (applyCustomerUpdate a x).gender = (if a.gender = "" then x.gender else a.gender) ∧
      (applyCustomerUpdate a x).region = (if a.region = "" then x.region else a.region) ∧
      (applyCustomerUpdate a x).email = (if a.email = "" then x.email else a.email) ∧
      (applyCustomerUpdate a x).custom_data =
        (if a.custom_data = "" then x.custom_data else a.custom_data) := by
  constructor
  · by_cases hguard : (((if a.name ≠ "" then pyStrip (removeChar ' ' a.name) else a.name) == "")
        || (a.phone == "")) = true
    · exfalso
      simp only [upsertCustomerIdentity] at h
      rw [if_pos hguard] at h
      simp at h
    · cases hfind : store.find? (fun c => c.phone_norm == normalizePhone a.phone) with
      | none =>
        exfalso
        simp only [upsertCustomerIdentity] at h
        rw [if_neg hguard, hfind] at h
        simp at h
      | some c =>
        refine ⟨c, rfl, ?_, ?_⟩
        · simp only [upsertCustomerIdentity] at h
          rw [if_neg hguard, hfind] at h
          simpa using h
        · simp only [upsertCustomerIdentity]
          rw [if_neg hguard, hfind]
  · intro x
    refine ⟨?_, ?_, ?_, ?_, ?_⟩ <;>
      (simp only [applyCustomerUpdate]; split_ifs <;> simp_all)

/-- Witness for C9: blank birth date survives, populated gender is
overwritten, on the concrete matched customer. -/
theorem C9_witness :
    (upsertCustomerIdentity [exPhoneCustomer] exC9Args).1 = (true, "Update", some 1) ∧
    (applyCustomerUpdate exC9Args exPhoneCustomer).birth_date =
      (if exC9Args.birth_date = "" then exPhoneCustomer.birth_date
       else exC9Args.birth_date) :=
  ⟨by decide,
   ((C9_update_merge_nondestructive [exPhoneCustomer] exC9Args 1 (by decide)).2
     exPhoneCustomer).1⟩

/-- C10 counterexample: the name " " is a non-empty string and the
phone matches the stored customer's `phone_norm`, yet the call returns
the failure triple and changes nothing — it does not return
('Update', id) as the claim asserts for every non-empty name. -/
theorem C10_whitespace_name_fails :
    (" " : String) ≠ "" ∧ ("010-9999-8888" : String) ≠ "" ∧
    exPhoneCustomer.phone_norm = normalizePhone "010-9999-8888" ∧
    upsertCustomerIdentity [exPhoneCustomer] { name := " ", phone := "010-9999-8888" } =
      ((false, "이름/연락처 필수", none), [exPhoneCustomer]) :=
  ⟨by decide, by decide, by decide, by decide⟩

/-- C10 (amended): when the name still holds a non-whitespace
character after space removal and the phone is non-empty,
`upsert_customer_identity` selects its target solely by `phone_norm`:
a stored match is updated and reported as ('Update', its id)
regardless of the names, and a new row — carrying exactly the incoming
`phone_norm` — is inserted only when no stored customer has that
`phone_norm`. -/
theorem C10_upsert_selects_by_phone (store : List Customer) (a : CustArgs)
    (hname : pyStrip (removeChar ' ' a.name) ≠ "")
    (hphone : a.phone ≠ "") :
    (∀ c, store.find? (fun x => x.phone_norm == normalizePhone a.phone) = some c →
      (upsertCustomerIdentity store a).1 = (true, "Update", some c.id) ∧
      (upsertCustomerIdentity store a).2 =
        store.map (fun x => if x.id == c.id then applyCustomerUpdate a x else x)) ∧
    (store.find? (fun x => x.phone_norm == normalizePhone a.phone) = none →
      (∀ x ∈ store, x.phone_norm ≠ normalizePhone a.phone) ∧
      (upsertCustomerIdentity store a).1 = (true, "Insert", some (nextCustomerId store)) ∧
      ∃ nw : Customer, (upsertCustomerIdentity store a).2 = store ++ [nw] ∧
        nw.phone_norm = normalizePhone a.phone) := by
  have hn : a.name ≠ "" := by
    intro hz
    apply hname
    rw [hz]
    decide
  have hguard : ¬ (((if a.name ≠ "" then pyStrip (removeChar ' ' a.name) else a.name) == "")
      || (a.phone == "")) = true := by
    rw [if_pos hn]
    simp only [Bool.or_eq_true, beq_iff_eq]
    rintro (hc | hc)
    · exact hname hc
    · exact hphone hc
  constructor
  · intro c hc
    simp only [upsertCustomerIdentity]
    rw [if_neg hguard, hc]
    exact ⟨rfl, rfl⟩
  · intro hc
    refine ⟨?_, ?_, ?_⟩
    · intro x hx hpn
      have := List.find?_eq_none.mp hc x hx
      simp only [beq_iff_eq] at this
      exact this hpn
    · simp only [upsertCustomerIdentity]
      rw [if_neg hguard, hc]
    · simp only [upsertCustomerIdentity]
      rw [if_neg hguard, hc]
      exact ⟨_, rfl, rfl⟩

/-- Witness for the amended C10: the concrete phone-matched store. -/
theorem C10_witness :
    pyStrip (removeChar ' ' exC10Args.name) ≠ "" ∧ exC10Args.phone ≠ "" ∧
    (upsertCustomerIdentity [exPhoneCustomer] exC10Args).1 = (true, "Update", some 1) :=
  ⟨by decide, by decide,
   (((C10_upsert_selects_by_phone [exPhoneCustomer] exC10Args (by decide) (by decide)).1
     exPhoneCustomer) (by decide)).1⟩

/-- A hold already RESOLVED for the (F, 1) file/row pair. -/
def exResolvedHold : Hold := { exHold with status := "RESOLVED" }

/-- The primary-key invariant of a single hold row plus its presence:
used while folding `sync_upload_holds`. -/
def holdInv (h : Hold) (l : List Hold) : Prop :=
  h ∈ l ∧ ∀ g ∈ l, g.id = h.id → g = h

theorem mem_lt_nextHoldId (h : Hold) (l : List Hold) (hm : h ∈ l) :
    h.id < nextHoldId l := by
  induction l with
  | nil => cases hm
  | cons x t ih =>
    have hfold : nextHoldId (x :: t) = max (x.id + 1) (nextHoldId t) := rfl
    rcases List.mem_cons.mp hm with rfl | hmt
    · rw [hfold]; omega
    · rw [hfold]; have := ih hmt; omega

theorem syncStep_preserves (customers : List Customer) (fileHash filename : String)
    (acc : Nat × List Hold) (r : RowOut) (h : Hold)
    (hres : h.status = "RESOLVED") (hinv : holdInv h acc.2) :
    holdInv h (syncStep customers fileHash filename acc r).2 := by
  obtain ⟨n, holds⟩ := acc
  obtain ⟨hmem, huniq⟩ := hinv
  simp only [syncStep]
  split
  · exact ⟨hmem, huniq⟩
  split
  · exact ⟨hmem, huniq⟩
  cases hfind : holds.find? (fun x => x.file_hash == fileHash && x.row_no == r.seq) with
  | some ex =>
    simp only []
    split
    · exact ⟨hmem, huniq⟩
    · rename_i hexres
      have hexmem : ex ∈ holds := List.mem_of_find?_eq_some hfind
      have hexid : ex.id ≠ h.id := by
        intro hid
        have := huniq ex hexmem hid
        subst this
        simp [hres] at hexres
      have hfh : (if (h.id == ex.id) = true then refreshHold customers filename r h else h) = h := by
        rw [if_neg]
        simp only [beq_iff_eq]
        intro hh
        exact hexid hh.symm
      constructor
      · have hm2 : (if (h.id == ex.id) = true then refreshHold customers filename r h else h) ∈
            List.map (fun g => if (g.id == ex.id) = true then refreshHold customers filename r g else g)
              holds :=
          List.mem_map_of_mem _ hmem
        rw [hfh] at hm2
        exact hm2
      · intro g hg hgid
        obtain ⟨g₀, hg₀, hfg⟩ := List.mem_map.mp hg
        by_cases hg₀ex : (g₀.id == ex.id) = true
        · exfalso
          rw [if_pos hg₀ex] at hfg
          have hgid0 : g.id = g₀.id := by rw [← hfg]; rfl
          simp only [beq_iff_eq] at hg₀ex
          exact hexid (by omega)
        · rw [if_neg hg₀ex] at hfg
          subst hfg
          exact huniq g₀ hg₀ hgid
  | none =>
    simp only []
    constructor
    · exact List.mem_append_left _ hmem
    · intro g hg hgid
      rcases List.mem_append.mp hg with hg | hg
      · exact huniq g hg hgid
      · exfalso
        have hgnew := List.mem_singleton.mp hg
        have hgn : g.id = nextHoldId holds := by rw [hgnew]; rfl
        have hlt := mem_lt_nextHoldId h holds hmem
        omega

theorem syncFold_preserves (customers : List Customer) (fileHash filename : String)
    (rows : List RowOut) (acc : Nat × List Hold) (h : Hold)
    (hres : h.status = "RESOLVED") (hinv : holdInv h acc.2) :
    holdInv h (rows.foldl (syncStep customers fileHash filename) acc).2 := by
  induction rows generalizing acc with
  | nil => exact hinv
  | cons r rs ih =>
    rw [List.foldl_cons]
    exact ih _ (syncStep_preserves customers fileHash filename acc r h hres hinv)

/-- C8: a hold whose status is RESOLVED survives any re-sync
untouched: the same record is still present afterwards and remains
the only record with its id — in particular its status never reverts
to OPEN.  The id-uniqueness hypothesis is the table's primary key. -/
theorem C8_sync_preserves_resolved (customers : List Customer) (holds : List Hold)
    (fileHash filename : String) (rows : List RowOut) (h : Hold)
    (hmem : h ∈ holds) (hres : h.status = "RESOLVED")
    (huniq : ∀ g ∈ holds, g.id = h.id → g = h) :
    h ∈ (syncUploadHolds customers holds fileHash filename rows).2 ∧
    ∀ g ∈ (syncUploadHolds customers holds fileHash filename rows).2,
      g.id = h.id → g = h := by
  unfold syncUploadHolds
  split
  · exact ⟨hmem, huniq⟩
  · exact syncFold_preserves customers fileHash filename rows (0, holds) h hres ⟨hmem, huniq⟩

/-- Witness for C8: re-syncing the same held row over a RESOLVED hold
keeps the record. -/
theorem C8_witness :
    exResolvedHold ∈ ([exResolvedHold] : List Hold) ∧
    exResolvedHold.status = "RESOLVED" ∧
    exResolvedHold ∈ (syncUploadHolds [] [exResolvedHold] "F" "f.xlsx" [exRowHeld]).2 :=
  ⟨by decide, by decide,
   (C8_sync_preserves_resolved [] [exResolvedHold] "F" "f.xlsx" [exRowHeld]
     exResolvedHold (by decide) (by decide)
     (by
       intro g hg hgid
       rcases List.mem_singleton.mp hg with rfl
       rfl)).1⟩

theorem mem_of_take_filter {x : Contract} {p : Contract → Bool} {db : List Contract}
    {n : Nat} (h : x ∈ (db.filter p).take n) : x ∈ db :=
  List.mem_of_mem_filter (List.mem_of_mem_take h)

theorem cascadeStep2_mem (db : List Contract) (cid : Int) (pn ch : String)
    (c : Contract) (h : cascadeStep2 db cid pn ch = some c) : c ∈ db := by
  simp only [cascadeStep2] at h
  split at h
  · split at h
    · rename_i r hf
      cases h
      exact mem_of_take_filter (List.mem_of_find?_eq_some hf)
    · split at h
      · rename_i heq
        cases h
        refine mem_of_take_filter (p := fun x => x.customer_id == cid && x.policy_no_norm == pn)
          (n := 5) ?_
        rw [heq]
        exact List.mem_singleton_self c
      · cases h
  · cases h

theorem cascadeStep3_found_mem (db : List Contract) (cid : Int) (pn sh ch : String)
    (c : Contract) (h : cascadeStep3 db cid pn sh ch = .found c) : c ∈ db := by
  simp only [cascadeStep3] at h
  split at h
  · split at h
    · rename_i r hf
      cases h
      exact mem_of_take_filter (List.mem_of_find?_eq_some hf)
    · split at h
      · cases h
      · rename_i heq
        cases h
        refine mem_of_take_filter (p := fun x => x.customer_id == cid && x.stable_hash == sh)
          (n := 10) ?_
        rw [heq]
        exact List.mem_singleton_self c
      · rename_i r rest heq
        split at h
        · cases h
          refine mem_of_take_filter (p := fun x => x.customer_id == cid && x.stable_hash == sh)
            (n := 10) ?_
          rw [heq]
          exact List.mem_cons_self ..
        · cases h
  · cases h

theorem matchCascade_found_mem (db : List Contract) (cid : Int) (pn sh kh ch : String)
    (c : Contract) (h : matchCascade db cid pn sh kh ch = .found c) : c ∈ db := by
  unfold matchCascade at h
  cases hf : db.find? (fun x => x.key_hash == kh) with
  | some c0 =>
    rw [hf] at h
    cases h
    exact List.mem_of_find?_eq_some hf
  | none =>
    rw [hf] at h
    cases h2 : cascadeStep2 db cid pn ch with
    | some c0 =>
      rw [h2] at h
      cases h
      exact cascadeStep2_mem db cid pn ch _ h2
    | none =>
      rw [h2] at h
      exact cascadeStep3_found_mem db cid pn sh ch c h

theorem addContractCore_same_of_key_content (db2 : List Contract) (a : CtArgs)
    (k : CtComputed) (r0 : Contract)
    (hf : db2.find? (fun x => x.key_hash == k.keyHash) = some r0)
    (hc : r0.content_hash = k.contentHash) :
    addContractCore db2 a k = ("same", db2) := by
  have hm : matchCascade db2 a.customer_id k.polNorm k.stableHash k.keyHash k.contentHash =
      .found r0 := by
    unfold matchCascade
    rw [hf]
  unfold addContractCore
  rw [hm]
  simp only []
  rw [if_pos (by simp [hc])]

/-- C3: `add_contract` is idempotent — whenever a call classifies as
"insert" or "update", repeating the identical call against the table
it produced classifies as "same" and leaves the table exactly as it
was (no new row, no field overwritten). -/
theorem C3_add_contract_idempotent (db : List Contract) (a : CtArgs)
    (h : (addContract db a).1 = "insert" ∨ (addContract db a).1 = "update") :
    addContract (addContract db a).2 a = ("same", (addContract db a).2) := by
  unfold addContract at h ⊢
  revert h
  generalize computeCt a = k
  intro h
  cases hm : matchCascade db a.customer_id k.polNorm k.stableHash k.keyHash k.contentHash with
  | ambig =>
    exfalso
    unfold addContractCore at h
    rw [hm] at h
    simp at h
  | found c =>
    unfold addContractCore at h
    rw [hm] at h
    simp only [] at h
    by_cases h1 : (c.content_hash == k.contentHash) = true
    · exfalso; rw [if_pos h1] at h; simp at h
    · rw [if_neg h1] at h
      by_cases h2 : (db.any fun r => r.id ≠ c.id && r.key_hash == k.keyHash) = true
      · exfalso; rw [if_pos h2] at h; simp at h
      · have hcall : addContractCore db a k =
            ("update", db.map fun r => if r.id == c.id then updateRow a k r else r) := by
          unfold addContractCore
          rw [hm]
          simp only []
          rw [if_neg h1, if_neg h2]
        rw [hcall]
        show addContractCore
          (db.map fun r => if r.id == c.id then updateRow a k r else r) a k =
            ("same", db.map fun r => if r.id == c.id then updateRow a k r else r)
        have hcmem : c ∈ db := matchCascade_found_mem db a.customer_id
          k.polNorm k.stableHash k.keyHash k.contentHash c hm
        have hall : ∀ x ∈ (db.map fun r => if r.id == c.id then updateRow a k r else r),
            (x.key_hash == k.keyHash) = true → x.content_hash = k.contentHash := by
          intro x hx hpx
          obtain ⟨g, hg, hfg⟩ := List.mem_map.mp hx
          by_cases hgid : (g.id == c.id) = true
          · rw [if_pos hgid] at hfg
            rw [← hfg]
            rfl
          · exfalso
            rw [if_neg hgid] at hfg
            apply h2
            refine List.any_eq_true.mpr ⟨g, hg, ?_⟩
            simp only [Bool.and_eq_true, decide_eq_true_eq]
            constructor
            · simp only [beq_iff_eq] at hgid
              exact hgid
            · rw [hfg]
              exact hpx
        have hfc : (if (c.id == c.id) = true then updateRow a k c else c) = updateRow a k c := by
          rw [if_pos (by simp)]
        have hexkey : ((updateRow a k c).key_hash == k.keyHash) = true := by
          simp [updateRow]
        have hex : ∃ x ∈ (db.map fun r => if r.id == c.id then updateRow a k r else r),
            (x.key_hash == k.keyHash) = true := by
          refine ⟨updateRow a k c, ?_, hexkey⟩
          have h5 := List.mem_map_of_mem
            (fun r => if r.id == c.id then updateRow a k r else r) hcmem
          simpa only [hfc] using h5
        obtain ⟨r0, hr0⟩ := Option.isSome_iff_exists.mp (List.find?_isSome.mpr hex)
        have hkey0 := List.find?_some hr0
        simp only [] at hkey0
        exact addContractCore_same_of_key_content _ a k r0 hr0
          (hall r0 (List.mem_of_find?_eq_some hr0) hkey0)
  | noMatch =>
    unfold addContractCore at h
    rw [hm] at h
    simp only [] at h
    by_cases h2 : (db.any fun r => r.key_hash == k.keyHash) = true
    · exfalso
      rw [if_pos h2] at h
      obtain ⟨x, hx, hpx⟩ := List.any_eq_true.mp h2
      have hsome : (db.find? (fun r => r.key_hash == k.keyHash)).isSome = true :=
        List.find?_isSome.mpr ⟨x, hx, hpx⟩
      obtain ⟨r0, hr0⟩ := Option.isSome_iff_exists.mp hsome
      rw [hr0] at h
      simp only [] at h
      by_cases h3 : (r0.content_hash == k.contentHash) = true
      · rw [if_pos h3] at h; simp at h
      · rw [if_neg h3] at h; simp at h
    · have hcall : addContractCore db a k =
          ("insert", db ++ [newRow a k (nextContractId db)]) := by
        unfold addContractCore
        rw [hm]
        simp only []
        rw [if_neg h2]
      rw [hcall]
      show addContractCore (db ++ [newRow a k (nextContractId db)]) a k =
        ("same", db ++ [newRow a k (nextContractId db)])
      have hdbnone : db.find? (fun x => x.key_hash == k.keyHash) = none := by
        refine List.find?_eq_none.mpr ?_
        intro x hx hpx
        exact h2 (List.any_eq_true.mpr ⟨x, hx, hpx⟩)
      have hfind : (db ++ [newRow a k (nextContractId db)]).find?
          (fun x => x.key_hash == k.keyHash) = some (newRow a k (nextContractId db)) := by
        rw [List.find?_append, hdbnone]
        simp [List.find?_cons, newRow]
      exact addContractCore_same_of_key_content _ a k _ hfind rfl

/-- Witness for C3: a fresh insert followed by the identical call. -/
theorem C3_witness :
    ((addContract [] exC1Args).1 = "insert" ∨ (addContract [] exC1Args).1 = "update") ∧
    addContract (addContract [] exC1Args).2 exC1Args =
      ("same", (addContract [] exC1Args).2) :=
  ⟨Or.inl (by decide),
   C3_add_contract_idempotent [] exC1Args (Or.inl (by decide))⟩

theorem ifPhoneNorm (s : String) : (if s ≠ "" then normalizePhone s else "") = normalizePhone s := by
  split_ifs with hs
  · rfl
  · simp only [ne_eq, not_not] at hs
    rw [hs]
    rfl

theorem effRow_phoneNorm_eq (row : SIRow) :
    (effectiveRow row).phoneNorm = normalizePhone (effectiveRow row).phone := by
  simp only [effectiveRow]
  exact ifPhoneNorm _

theorem analyzeRows_ok_get (customers : List Customer) (contracts : List Contract)
    (rows : List SIRow) (seq : Nat) (outs : List RowOut)
    (h : analyzeRows customers contracts seq rows = .ok outs) :
    outs.length = rows.length ∧
    ∀ i row, rows[i]? = some row →
      ∃ r, outs[i]? = some r ∧ analyzeRow customers contracts (seq + i) row = .ok r := by
  induction rows generalizing seq outs with
  | nil =>
    unfold analyzeRows at h
    cases h
    exact ⟨rfl, fun i row hrow => by simp at hrow⟩
  | cons r rs ih =>
    unfold analyzeRows at h
    cases h1 : analyzeRow customers contracts seq r with
    | error u => rw [h1] at h; simp at h
    | ok out =>
      rw [h1] at h
      cases h2 : analyzeRows customers contracts (seq + 1) rs with
      | error u => rw [h2] at h; simp only [] at h; simp at h
      | ok outs2 =>
        rw [h2] at h
        simp only [] at h
        cases h
        obtain ⟨ihlen, ihget⟩ := ih (seq + 1) outs2 h2
        refine ⟨by simp [ihlen], ?_⟩
        intro i row hrow
        cases i with
        | zero =>
          simp only [List.getElem?_cons_zero, Option.some.injEq] at hrow
          subst hrow
          exact ⟨out, by simp, by simpa using h1⟩
        | succ n =>
          simp only [List.getElem?_cons_succ] at hrow ⊢
          obtain ⟨r', hr', ha⟩ := ihget n row hrow
          refine ⟨r', hr', ?_⟩
          have harith : seq + (n + 1) = seq + 1 + n := by omega
          rw [harith]
          exact ha

theorem classifyCustomer_phone_name_mismatch (store : List Customer) (e : EffRow)
    (mk0 : String) (c : Customer)
    (hname : e.name ≠ "") (hphone : e.phoneNorm ≠ "")
    (hfilter : store.filter (fun x => x.phone_norm == e.phoneNorm) = [c])
    (hcn : smartNormalizeName c.name ≠ "")
    (hdiff : smartNormalizeName c.name ≠ e.name) :
    classifyCustomer store e mk0 =
      { status := "보류", id := none,
        reason := "동일 연락처지만 이름 불일치 → 대표님 선택 필요(자동 흡수 금지)",
        candidates := [c], matchKey := mk0 } := by
  have hby : fetchByPhoneNorm store e.phoneNorm = [c] := by
    unfold fetchByPhoneNorm
    rw [hfilter]
    rfl
  simp only [classifyCustomer]
  rw [if_pos (by simp [hname, hphone]), hby]
  simp only []
  rw [if_pos (by simp [hcn, hname, hdiff])]

theorem classifyCustomer_ne_fail (store : List Customer) (e : EffRow) (mk0 : String)
    (hname : e.name ≠ "") (hphone : e.phoneNorm ≠ "") :
    (classifyCustomer store e mk0).status ≠ "실패" := by
  simp only [classifyCustomer]
  rw [if_pos (by simp [hname, hphone])]
  rcases hby : fetchByPhoneNorm store e.phoneNorm with - | ⟨x, - | ⟨y, t⟩⟩ <;>
    simp only [] <;> (try split_ifs) <;> simp

theorem previewContractAction_ok_status (contracts : List Contract) (cid : Int)
    (fin : FinData) (p : PrevResult)
    (h : previewContractAction contracts cid fin = .ok p) : p.status = "보류" := by
  simp only [previewContractAction] at h
  split at h
  · split at h
    · cases h; rfl
    · cases h
  · cases h

theorem contractSide_ok_ne_fail (contracts : List Contract) (cc : CustClass)
    (finOpt : Option FinData) (cs cr : String) (ci : Option Nat)
    (h : contractSide contracts cc finOpt = .ok (cs, cr, ci)) : cs ≠ "실패" := by
  unfold contractSide at h
  cases finOpt with
  | none =>
    simp only [] at h
    cases h
    simp
  | some fin =>
    simp only [] at h
    by_cases hguard : ((cc.status == "변경" || cc.status == "신규") &&
        (cc.id.isSome || cc.status == "신규")) = true
    · rw [if_pos hguard] at h
      cases hid : cc.id with
      | none =>
        rw [hid] at h
        simp only [] at h
        split at h
        · split at h
          · cases h; simp
          · cases h; simp
        · cases h; simp
      | some cid =>
        rw [hid] at h
        simp only [] at h
        cases hp : previewContractAction contracts (Int.ofNat cid) fin with
        | error u => rw [hp] at h; cases h
        | ok p =>
          rw [hp] at h
          simp only [] at h
          cases h
          rw [previewContractAction_ok_status contracts (Int.ofNat cid) fin p hp]
          simp
    · rw [if_neg hguard] at h
      cases h
      simp

theorem contractSide_of_hold (contracts : List Contract) (cc : CustClass)
    (finOpt : Option FinData) (h : cc.status = "보류") :
    contractSide contracts cc finOpt =
      (match finOpt with
       | none => .ok ("", "", none)
       | some _ => .ok ("보류", "고객 보류/실패 → 계약 매칭 불가(수동 확인 필요)", none)) := by
  unfold contractSide
  cases finOpt with
  | none => rfl
  | some fin =>
    have hg : ¬(((cc.status == "변경" || cc.status == "신규") &&
        (cc.id.isSome || cc.status == "신규")) = true) := by simp [h]
    simp only []
    rw [if_neg hg]

theorem escalateRow_fields (pairs : List (String × String)) (r : RowOut) :
    (escalateRow pairs r).name = r.name ∧ (escalateRow pairs r).phone = r.phone ∧
    (escalateRow pairs r).customer_id = r.customer_id := by
  simp only [escalateRow]
  split_ifs <;> exact ⟨rfl, rfl, rfl⟩

theorem escalateRow_keeps_hold (pairs : List (String × String)) (r : RowOut)
    (hc : r.customer_status = "보류") :
    (escalateRow pairs r).customer_status = "보류" := by
  simp only [escalateRow]
  split_ifs <;> simp_all

theorem escalateRow_escalates (pairs : List (String × String)) (r : RowOut)
    (h0 : ¬(normalizePhone r.phone == "" || !isConflictPhone pairs (normalizePhone r.phone)) = true)
    (hcust : r.customer_status ≠ "실패") (hrow : r.row_status ≠ "실패") :
    (escalateRow pairs r).customer_status = "보류" ∧ (escalateRow pairs r).row_status = "보류" := by
  simp only [escalateRow]
  rw [if_neg h0]
  split_ifs <;> simp_all

/-- C2: in any successfully analyzed batch, a row whose effective
identity has a name and a normalizable phone, where exactly one stored
customer carries that `phone_norm` and that customer's normalized name
is non-empty and differs from the row's, ends with customer status
보류 (HOLD) and no matched customer id — never an automatic 변경
(UPDATE). -/
theorem C2_phone_reuse_is_hold (customers : List Customer) (contracts : List Contract)
    (rows : List SIRow) (out : List RowOut)
    (h : analyzeProcessedDf customers contracts rows = .ok out)
    (i : Nat) (row : SIRow) (hrow : rows[i]? = some row) (c : Customer)
    (hname : (effectiveRow row).name ≠ "")
    (hphone : (effectiveRow row).phoneNorm ≠ "")
    (hfilter : customers.filter (fun x => x.phone_norm == (effectiveRow row).phoneNorm) = [c])
    (hcn : smartNormalizeName c.name ≠ "")
    (hdiff : smartNormalizeName c.name ≠ (effectiveRow row).name) :
    ∃ r, out[i]? = some r ∧ r.customer_status = "보류" ∧ r.customer_id = none := by
  unfold analyzeProcessedDf at h
  cases ha : analyzeRows customers contracts 1 rows with
  | error u => rw [ha] at h; simp at h
  | ok outs =>
    rw [ha] at h
    simp only [] at h
    cases h
    obtain ⟨hlen, hget⟩ := analyzeRows_ok_get customers contracts rows 1 outs ha
    obtain ⟨r0, hr0, hrowok⟩ := hget i row hrow
    have hcc := classifyCustomer_phone_name_mismatch customers (effectiveRow row)
      (pyStrip row.match_key) c hname hphone hfilter hcn hdiff
    have hcs := contractSide_of_hold contracts
      (classifyCustomer customers (effectiveRow row) (pyStrip row.match_key))
      row.financial (by rw [hcc])
    have hr0fields : r0.customer_status = "보류" ∧ r0.customer_id = none := by
      simp only [analyzeRow] at hrowok
      rw [hcs] at hrowok
      cases hfin : row.financial with
      | none =>
        rw [hfin] at hrowok
        simp only [] at hrowok
        cases hrowok
        exact ⟨by simp [hcc], by simp [hcc]⟩
      | some fin =>
        rw [hfin] at hrowok
        simp only [] at hrowok
        cases hrowok
        exact ⟨by simp [hcc], by simp [hcc]⟩
    refine ⟨escalateRow (conflictPairs outs) r0, ?_, ?_, ?_⟩
    · rw [List.getElem?_map, hr0]
      rfl
    · exact escalateRow_keeps_hold (conflictPairs outs) r0 hr0fields.1
    · rw [(escalateRow_fields (conflictPairs outs) r0).2.2]
      exact hr0fields.2

/-- Witness for C2: one stored customer, same phone, different
incoming name. -/
theorem C2_witness :
    analyzeProcessedDf exC2Store [] [exC2Row] = .ok exC2Out ∧
    (∃ r, exC2Out[0]? = some r ∧ r.customer_status = "보류" ∧ r.customer_id = none) :=
  ⟨by rfl,
   C2_phone_reuse_is_hold exC2Store [] [exC2Row] exC2Out (by rfl) 0 exC2Row (by rfl)
     exC2Cust (by decide) (by decide) (by decide) (by decide) (by decide)⟩

theorem exceptOk_ne_error {α β : Type} (u : α) (r : β) (h : Except.error u = Except.ok r) : False :=
  Except.noConfusion h

theorem analyzeRow_ok_shape (customers : List Customer) (contracts : List Contract)
    (seq : Nat) (row : SIRow) (r : RowOut)
    (h : analyzeRow customers contracts seq row = .ok r) :
    r.name = (effectiveRow row).name ∧ r.phone = (effectiveRow row).phone ∧
    r.customer_status =
      (classifyCustomer customers (effectiveRow row) (pyStrip row.match_key)).status ∧
    ∃ cs cr ci,
      contractSide contracts
        (classifyCustomer customers (effectiveRow row) (pyStrip row.match_key))
        row.financial = .ok (cs, cr, ci) ∧
      r.row_status =
        (if ((classifyCustomer customers (effectiveRow row) (pyStrip row.match_key)).status == "실패"
            || cs == "실패") = true then "실패"
         else if ((classifyCustomer customers (effectiveRow row) (pyStrip row.match_key)).status == "보류"
            || cs == "보류") = true then "보류"
         else if cs ≠ "" then cs
         else (classifyCustomer customers (effectiveRow row) (pyStrip row.match_key)).status) := by
  simp only [analyzeRow] at h
  cases hcs : contractSide contracts
      (classifyCustomer customers (effectiveRow row) (pyStrip row.match_key))
      row.financial with
  | error u => rw [hcs] at h; exact absurd h (fun hh => exceptOk_ne_error u r hh)
  | ok triple =>
    obtain ⟨cs, cr, ci⟩ := triple
    rw [hcs] at h
    simp only [] at h
    cases h
    exact ⟨rfl, rfl, rfl, cs, cr, ci, rfl, rfl⟩

theorem analyzeRow_ok_ne_fail (customers : List Customer) (contracts : List Contract)
    (seq : Nat) (row : SIRow) (r : RowOut)
    (h : analyzeRow customers contracts seq row = .ok r)
    (hname : (effectiveRow row).name ≠ "") (hphone : (effectiveRow row).phoneNorm ≠ "") :
    r.customer_status ≠ "실패" ∧ r.row_status ≠ "실패" := by
  obtain ⟨hn, hp, hcst, cs, cr, ci, hcs, hrs⟩ :=
    analyzeRow_ok_shape customers contracts seq row r h
  have hcc := classifyCustomer_ne_fail customers (effectiveRow row) (pyStrip row.match_key)
    hname hphone
  have hcsne := contractSide_ok_ne_fail contracts _ row.financial cs cr ci hcs
  refine ⟨by rw [hcst]; exact hcc, ?_⟩
  rw [hrs]
  split_ifs with h1 h2 h3
  · exfalso
    simp only [Bool.or_eq_true, beq_iff_eq] at h1
    rcases h1 with h1 | h1
    · exact hcc h1
    · exact hcsne h1
  · simp
  · exact hcsne
  · exact hcc

/-- C7: in any successfully analyzed batch, two output rows carrying
the same non-empty normalized phone but different non-empty normalized
names both end with customer status 보류 (HOLD) and row status 보류 —
whatever each row's individual classification (e.g. 신규/NEW) would
have been. -/
theorem C7_file_conflict_escalates (customers : List Customer) (contracts : List Contract)
    (rows : List SIRow) (out : List RowOut)
    (h : analyzeProcessedDf customers contracts rows = .ok out)
    (i j : Nat) (ri rj : RowOut)
    (hri : out[i]? = some ri) (hrj : out[j]? = some rj)
    (hpn : normalizePhone ri.phone = normalizePhone rj.phone)
    (hpn0 : normalizePhone ri.phone ≠ "")
    (hni : smartNormalizeName ri.name ≠ "")
    (hnj : smartNormalizeName rj.name ≠ "")
    (hdiff : smartNormalizeName ri.name ≠ smartNormalizeName rj.name) :
    ri.customer_status = "보류" ∧ ri.row_status = "보류" ∧
    rj.customer_status = "보류" ∧ rj.row_status = "보류" := by
  unfold analyzeProcessedDf at h
  cases ha : analyzeRows customers contracts 1 rows with
  | error u => rw [ha] at h; simp at h
  | ok outs =>
    rw [ha] at h
    simp only [] at h
    cases h
    obtain ⟨hlen, hget⟩ := analyzeRows_ok_get customers contracts rows 1 outs ha
    rw [List.getElem?_map] at hri hrj
    obtain ⟨pi, hpi, hpeqi⟩ := Option.map_eq_some'.mp hri
    obtain ⟨pj, hpj, hpeqj⟩ := Option.map_eq_some'.mp hrj
    subst hpeqi
    subst hpeqj
    obtain ⟨hfni, hfpi, -⟩ := escalateRow_fields (conflictPairs outs) pi
    obtain ⟨hfnj, hfpj, -⟩ := escalateRow_fields (conflictPairs outs) pj
    rw [hfpi, hfpj] at hpn
    rw [hfpi] at hpn0
    rw [hfni] at hni
    rw [hfnj] at hnj
    rw [hfni, hfnj] at hdiff
    have hilt : i < outs.length := (List.getElem?_eq_some.mp hpi).1
    have hjlt : j < outs.length := (List.getElem?_eq_some.mp hpj).1
    obtain ⟨rowi, hirow⟩ : ∃ rowi, rows[i]? = some rowi :=
      ⟨_, List.getElem?_eq_getElem (by omega)⟩
    obtain ⟨rowj, hjrow⟩ : ∃ rowj, rows[j]? = some rowj :=
      ⟨_, List.getElem?_eq_getElem (by omega)⟩
    obtain ⟨ri', hri', hanai⟩ := hget i rowi hirow
    obtain ⟨rj', hrj', hanaj⟩ := hget j rowj hjrow
    rw [hpi] at hri'
    rw [hpj] at hrj'
    cases hri'
    cases hrj'
    obtain ⟨hsni, hspi, -, -⟩ := analyzeRow_ok_shape customers contracts (1 + i) rowi pi hanai
    obtain ⟨hsnj, hspj, -, -⟩ := analyzeRow_ok_shape customers contracts (1 + j) rowj pj hanaj
    have henamei : (effectiveRow rowi).name ≠ "" := by
      intro hz
      rw [hsni, hz] at hni
      exact hni (by decide)
    have henamej : (effectiveRow rowj).name ≠ "" := by
      intro hz
      rw [hsnj, hz] at hnj
      exact hnj (by decide)
    have hephonei : (effectiveRow rowi).phoneNorm ≠ "" := by
      rw [effRow_phoneNorm_eq, ← hspi]
      exact hpn0
    have hephonej : (effectiveRow rowj).phoneNorm ≠ "" := by
      rw [effRow_phoneNorm_eq, ← hspj, ← hpn]
      exact hpn0
    obtain ⟨hcFi, hrFi⟩ := analyzeRow_ok_ne_fail customers contracts (1 + i) _ pi hanai
      henamei hephonei
    obtain ⟨hcFj, hrFj⟩ := analyzeRow_ok_ne_fail customers contracts (1 + j) _ pj hanaj
      henamej hephonej
    have hmemi : pi ∈ outs := by
      obtain ⟨hb, he⟩ := List.getElem?_eq_some.mp hpi
      exact he ▸ List.getElem_mem hb
    have hmemj : pj ∈ outs := by
      obtain ⟨hb, he⟩ := List.getElem?_eq_some.mp hpj
      exact he ▸ List.getElem_mem hb
    have hpairi : (normalizePhone pi.phone, smartNormalizeName pi.name) ∈ conflictPairs outs := by
      unfold conflictPairs
      refine List.mem_filterMap.mpr ⟨pi, hmemi, ?_⟩
      rw [if_pos (by simp [hpn0, hni])]
    have hpairj : (normalizePhone pj.phone, smartNormalizeName pj.name) ∈ conflictPairs outs := by
      unfold conflictPairs
      refine List.mem_filterMap.mpr ⟨pj, hmemj, ?_⟩
      rw [if_pos (by simp [← hpn, hpn0, hnj])]
    have hconf : isConflictPhone (conflictPairs outs) (normalizePhone pi.phone) = true := by
      unfold isConflictPhone
      refine List.any_eq_true.mpr
        ⟨(normalizePhone pi.phone, smartNormalizeName pi.name), hpairi, ?_⟩
      simp only [Bool.and_eq_true, beq_self_eq_true, true_and]
      refine List.any_eq_true.mpr
        ⟨(normalizePhone pj.phone, smartNormalizeName pj.name), hpairj, ?_⟩
      simp only [Bool.and_eq_true, beq_iff_eq, decide_eq_true_eq]
      exact ⟨hpn.symm, fun hh => hdiff hh.symm⟩
    have hconfj : isConflictPhone (conflictPairs outs) (normalizePhone pj.phone) = true := by
      rw [← hpn]
      exact hconf
    have hguardi : ¬(normalizePhone pi.phone == "" ||
        !isConflictPhone (conflictPairs outs) (normalizePhone pi.phone)) = true := by
      simp [hpn0, hconf]
    have hguardj : ¬(normalizePhone pj.phone == "" ||
        !isConflictPhone (conflictPairs outs) (normalizePhone pj.phone)) = true := by
      simp [← hpn, hpn0, hconf]
    obtain ⟨hc1, hc2⟩ := escalateRow_escalates (conflictPairs outs) pi hguardi hcFi hrFi
    obtain ⟨hd1, hd2⟩ := escalateRow_escalates (conflictPairs outs) pj hguardj hcFj hrFj
    exact ⟨hc1, hc2, hd1, hd2⟩

/-- Witness for C7: an empty store and two rows sharing a phone under
two different names; both would individually classify 신규 (NEW). -/
theorem C7_witness :
    analyzeProcessedDf [] [] [exC7RowA, exC7RowB] = .ok exC7Out ∧
    exC7Out[0]? = some exC7ri ∧ exC7Out[1]? = some exC7rj ∧
    normalizePhone exC7ri.phone = normalizePhone exC7rj.phone ∧
    normalizePhone exC7ri.phone ≠ "" ∧
    smartNormalizeName exC7ri.name ≠ smartNormalizeName exC7rj.name ∧
    (exC7ri.customer_status = "보류" ∧ exC7ri.row_status = "보류" ∧
     exC7rj.customer_status = "보류" ∧ exC7rj.row_status = "보류") :=
  ⟨by rfl, by rfl, by rfl, by decide, by decide, by decide,
   C7_file_conflict_escalates [] [] [exC7RowA, exC7RowB] exC7Out (by rfl) 0 1
     exC7ri exC7rj (by rfl) (by rfl) (by decide) (by decide) (by decide)
     (by decide) (by decide)⟩

end KFIT
